import Mathlib

/-!
Shallow embedding of the booking/transaction engine of the `be-event`
ticketing backend (src/modules/transaction/transaction.service.ts), together
with proofs of the specified properties.

The database is modelled as an explicit state value (`DB`).  Each service
method becomes a function `DB → … → Except ApiErr (DB × …)`: a `.ok` result
carries the committed database, an `.error` result models a thrown `ApiError`
or a failed Prisma write, in which case the surrounding `$transaction` unit
of work rolls back and the database is unchanged (the caller keeps the old
`DB`).  Timestamps are integer milliseconds.  The state carries the single
offering (ticket type) that the capacity claims quantify over; quantities and
point amounts are natural numbers, as the DTO validation layer (outside this
service) admits only non-negative integers per the data model.
-/

namespace BeEvent

/-- Transaction status enumeration used by the service
(`WAITING_FOR_PAYMENT`, `WAITING_FOR_CONFIRMATION`, `DONE`, `REJECTED`,
`EXPIRED`, `CANCELLED`). -/
inductive TxStatus where
  | waitingForPayment
  | waitingForConfirmation
  | done
  | rejected
  | expired
  | cancelled
deriving DecidableEq, Repr

/-- Errors raised by the service.  Constructors are named after the
`ApiError` messages thrown in transaction.service.ts; `recordNotFound`
models the Prisma P2025 error thrown when a guarded `update` matches no
row (e.g. the optimistic-lock `where` clause fails). -/
inductive ApiErr where
  | userNotFound              -- "User not found" (404)
  | ticketTypeNotFound        -- "Ticket type not found" (404)
  | ticketTypeWrongEvent      -- "Ticket type does not belong to this event"
  | eventNotPublished         -- "Event is not published"
  | eventExpired              -- "Cannot purchase tickets for expired events"
  | notEnoughSeats            -- "Not enough available seats"
  | insufficientPoints        -- "Insufficient points"
  | invalidCouponCode         -- "Invalid coupon code"
  | couponNotActive           -- "Coupon is not active"
  | couponLimitExceeded       -- "Coupon usage limit exceeded"
  | couponAlreadyUsed         -- "You have already used this coupon"
  | invalidVoucherCode        -- "Invalid voucher code"
  | voucherNotActive          -- "Voucher is not active"
  | voucherLimitExceeded      -- "Voucher usage limit exceeded"
  | voucherAlreadyUsed        -- "You have already used this voucher"
  | invalidFinalAmount        -- "Final amount must be greater than 0 for paid events"
  | recordNotFound            -- Prisma P2025: guarded update matched no row
  | transactionNotFound       -- "Transaction not found" (404)
  | organizerIdRequired       -- "OrganizerId is required for manual status updates"
  | invalidStatusTransition   -- "Invalid status transition"
  | notWaitingForPayment      -- "Transaction is not in waiting for payment status"
  | uploadExpired             -- "Payment proof upload time has expired"
deriving DecidableEq, Repr

/-- Side-effect events emitted by a unit of work, used to reason about the
order of the e-mail notification relative to the commit of the
`$transaction` block. -/
inductive Ev where
  | statusWrite (txId : Nat) (s : TxStatus)
  | notifySent (txId : Nat) (s : TxStatus)
  | notifyFailed (txId : Nat) (s : TxStatus)
  | commit
deriving DecidableEq, Repr

/-- Event row fields read by the service (via `ticketType.include.event`). -/
structure Event where
  id : Nat
  organizerId : Nat
  published : Bool
  endDate : Int
deriving DecidableEq, Repr

/-- Ticket type (offering) row: unit price, total and available seats and
soft-delete flag, with its parent event denormalized as in the Prisma
`include`. -/
structure TicketType where
  id : Nat
  event : Event
  price : Int
  totalSeats : Int
  availableSeats : Int
  deleted : Bool
deriving DecidableEq, Repr

/-- Coupon grant row. -/
structure Coupon where
  id : Nat
  code : String
  discountValue : Nat
  usageLimit : Nat
  startDate : Int
  endDate : Int
  deleted : Bool
deriving DecidableEq, Repr

/-- Voucher grant row (scoped to an event). -/
structure Voucher where
  id : Nat
  code : String
  eventId : Nat
  discountValue : Nat
  usageLimit : Nat
  startDate : Int
  endDate : Int
  deleted : Bool
deriving DecidableEq, Repr

/-- Status of a per-user usage record (`userCoupon` / `userVoucher` row). -/
inductive UsageStatus where
  | active
  | used
deriving DecidableEq, Repr

/-- Per-user usage record of a coupon or voucher grant. -/
structure UsageRec where
  userId : Nat
  grantId : Nat
  status : UsageStatus
  expiresAt : Int
deriving DecidableEq, Repr

/-- Transaction (booking) row. -/
structure Booking where
  id : Nat
  userId : Nat
  organizerId : Nat
  eventId : Nat
  ticketTypeId : Nat
  status : TxStatus
  quantity : Nat
  unitPrice : Int
  totalAmount : Int
  pointsUsed : Nat
  couponId : Option Nat
  voucherId : Option Nat
  finalAmount : Int
  paymentProof : Option String
  expiresAt : Int
  createdAt : Int
  updatedAt : Int
  deleted : Bool
deriving DecidableEq, Repr

/-- Database state.  `users` maps a user id to its points balance (absent
means no such user).  `ticketType` is the one offering the capacity claims
quantify over; `nextId` generates fresh booking ids. -/
structure DB where
  users : Nat → Option Int
  ticketType : TicketType
  coupons : List Coupon
  vouchers : List Voucher
  userCoupons : List UsageRec
  userVouchers : List UsageRec
  transactions : List Booking
  nextId : Nat

/-- Input DTO of `createTransaction`. -/
structure CreateTransactionDto where
  ticketTypeId : Nat
  quantity : Nat
  pointsUsed : Option Nat
  couponCode : Option String
  voucherCode : Option String
deriving DecidableEq, Repr

/-- Transition table of `isValidStatusTransition` (lines 729-743). -/
def validTransitions : TxStatus → List TxStatus
  | TxStatus.waitingForPayment =>
      [TxStatus.waitingForConfirmation, TxStatus.expired, TxStatus.cancelled]
  | TxStatus.waitingForConfirmation =>
      [TxStatus.done, TxStatus.rejected, TxStatus.cancelled]
  | TxStatus.done => []
  | TxStatus.rejected => []
  | TxStatus.expired => []
  | TxStatus.cancelled => []

/-- isValidStatusTransition (lines 729-743): lookup in the table followed by
`includes`. -/
def isValidStatusTransition (currentStatus newStatus : TxStatus) : Bool :=
  (validTransitions currentStatus).contains newStatus

/-- Statuses for which `updateTransactionStatus` runs `restoreResources`
(lines 393-397). -/
def reversingStatus (s : TxStatus) : Bool :=
  s == TxStatus.rejected || s == TxStatus.expired || s == TxStatus.cancelled

/-- Statuses under which a booking still holds its reserved seats (it has
been created and not reversed). -/
def activeStatus : TxStatus → Bool
  | TxStatus.waitingForPayment => true
  | TxStatus.waitingForConfirmation => true
  | TxStatus.done => true
  | _ => false

/-- Pointwise update of the user points store. -/
def setPoints (users : Nat → Option Int) (userId : Nat) (p : Int) : Nat → Option Int :=
  fun u => if u = userId then some p else users u

/-- Count of USED usage records of a coupon
(`prisma.userCoupon.count({where: {couponId, status: "USED"}})`, line 673). -/
def usedCouponCount (db : DB) (couponId : Nat) : Nat :=
  (db.userCoupons.filter (fun r => r.grantId == couponId && r.status == UsageStatus.used)).length

/-- Count of USED usage records of a voucher (line 710). -/
def usedVoucherCount (db : DB) (voucherId : Nat) : Nat :=
  (db.userVouchers.filter (fun r => r.grantId == voucherId && r.status == UsageStatus.used)).length

/-- validateCoupon (lines 659-690): find a non-soft-deleted coupon by code,
check the active window, the global usage limit, then the per-user USED
record.  Read-only: returns the coupon row, mutates nothing. -/
def validateCoupon (db : DB) (now : Int) (code : String) (userId : Nat) :
    Except ApiErr Coupon :=
  match db.coupons.find? (fun c => c.code == code && !c.deleted) with
  | none => Except.error ApiErr.invalidCouponCode
  | some coupon =>
    if now < coupon.startDate ∨ coupon.endDate < now then
      Except.error ApiErr.couponNotActive
    else if coupon.usageLimit ≤ usedCouponCount db coupon.id then
      Except.error ApiErr.couponLimitExceeded
    else if db.userCoupons.any
        (fun r => r.userId == userId && r.grantId == coupon.id && r.status == UsageStatus.used) then
      Except.error ApiErr.couponAlreadyUsed
    else
      Except.ok coupon

/-- validateVoucher (lines 692-727): as validateCoupon but the lookup is also
keyed by the event. -/
def validateVoucher (db : DB) (now : Int) (code : String) (eventId userId : Nat) :
    Except ApiErr Voucher :=
  match db.vouchers.find? (fun v => v.code == code && v.eventId == eventId && !v.deleted) with
  | none => Except.error ApiErr.invalidVoucherCode
  | some voucher =>
    if now < voucher.startDate ∨ voucher.endDate < now then
      Except.error ApiErr.voucherNotActive
    else if voucher.usageLimit ≤ usedVoucherCount db voucher.id then
      Except.error ApiErr.voucherLimitExceeded
    else if db.userVouchers.any
        (fun r => r.userId == userId && r.grantId == voucher.id && r.status == UsageStatus.used) then
      Except.error ApiErr.voucherAlreadyUsed
    else
      Except.ok voucher

/-- Coupon and voucher resolution steps of createTransaction (lines 77-89):
each code, when supplied, is validated; the first failure aborts the create. -/
def applyDiscounts (db : DB) (now : Int) (userId eventId : Nat)
    (couponCode voucherCode : Option String) :
    Except ApiErr (Option Coupon × Option Voucher) :=
  match couponCode with
  | none =>
    match voucherCode with
    | none => Except.ok (none, none)
    | some vc =>
      match validateVoucher db now vc eventId userId with
      | Except.error e => Except.error e
      | Except.ok v => Except.ok (none, some v)
  | some cc =>
    match validateCoupon db now cc userId with
    | Except.error e => Except.error e
    | Except.ok c =>
      match voucherCode with
      | none => Except.ok (some c, none)
      | some vc =>
        match validateVoucher db now vc eventId userId with
        | Except.error e => Except.error e
        | Except.ok v => Except.ok (some c, some v)

/-- Discount value contributed by an optional resolved coupon. -/
def couponDisc (c : Option Coupon) : Int :=
  match c with
  | some c => (c.discountValue : Int)
  | none => 0

/-- Discount value contributed by an optional resolved voucher. -/
def voucherDisc (v : Option Voucher) : Int :=
  match v with
  | some v => (v.discountValue : Int)
  | none => 0

/-- Points guard of createTransaction (lines 65-69): an error is raised
exactly when points are requested, positive, and exceed the balance. -/
def pointsInsufficient (pointsUsed : Option Nat) (balance : Int) : Bool :=
  match pointsUsed with
  | some p => decide (0 < p) && decide (balance < (p : Int))
  | none => false

/-- Total of createTransaction (line 91): unit price times quantity. -/
def totalAmountOf (tt : TicketType) (quantity : Nat) : Int :=
  tt.price * (quantity : Int)

/-- Final amount of createTransaction (lines 92-95):
`Math.max(0, totalAmount - discountAmount - (pointsUsed || 0))`. -/
def finalAmountOf (tt : TicketType) (quantity pointsUsed : Nat)
    (c : Option Coupon) (v : Option Voucher) : Int :=
  max 0 (totalAmountOf tt quantity - (couponDisc c + voucherDisc v) - (pointsUsed : Int))

/-- Booking row inserted by the `$transaction` block of createTransaction
(lines 118-153): status `WAITING_FOR_PAYMENT`, payment deadline two hours
from now, price and organizer snapshotted from the ticket type read. -/
def newBooking (dbCur : DB) (now : Int) (userId eventId : Nat) (tt : TicketType)
    (quantity pointsUsed : Nat) (c : Option Coupon) (v : Option Voucher)
    (totalAmount finalAmount : Int) : Booking :=
  { id := dbCur.nextId
    userId := userId
    organizerId := tt.event.organizerId
    eventId := eventId
    ticketTypeId := tt.id
    status := TxStatus.waitingForPayment
    quantity := quantity
    unitPrice := tt.price
    totalAmount := totalAmount
    pointsUsed := pointsUsed
    couponId := c.map Coupon.id
    voucherId := v.map Voucher.id
    finalAmount := finalAmount
    paymentProof := none
    expiresAt := now + 2 * 60 * 60 * 1000
    createdAt := now
    updatedAt := now
    deleted := false }

/-- Points debit inside the create unit of work (lines 156-165): a guarded
`user.update` with `decrement`; throws (P2025) if the user row is gone. -/
def decrementUserPoints (db : DB) (userId : Nat) (pointsUsed : Nat) : Except ApiErr DB :=
  if 0 < pointsUsed then
    match db.users userId with
    | none => Except.error ApiErr.recordNotFound
    | some pts => Except.ok { db with users := setPoints db.users userId (pts - (pointsUsed : Int)) }
  else Except.ok db

/-- Usage-record insertion inside the create unit of work (lines 168-190):
a `USED` record expiring at the grant's end date. -/
def addUsedRecord (recs : List UsageRec) (userId grantId : Nat) (expiresAt : Int) :
    List UsageRec :=
  { userId := userId, grantId := grantId, status := UsageStatus.used, expiresAt := expiresAt } :: recs

/-- The seat write of the create unit of work (lines 105-113): the update
is guarded by `availableSeats ≥ quantity` against the current row, but the
written value is the absolute `tt.availableSeats - quantity` computed from
the earlier read `tt`. -/
def reserveSeatsWrite (dbCur : DB) (tt : TicketType) (quantity : Nat) : DB :=
  { dbCur with ticketType :=
      { dbCur.ticketType with availableSeats := tt.availableSeats - (quantity : Int) } }

/-- Insertion of the new transaction row (lines 118-153). -/
def insertBooking (db : DB) (bk : Booking) : DB :=
  { db with transactions := bk :: db.transactions, nextId := db.nextId + 1 }

/-- Creation of the USED coupon usage record when a coupon was applied
(lines 168-178). -/
def markUsedCoupon (db : DB) (userId : Nat) (c : Option Coupon) : DB :=
  match c with
  | some cp => { db with userCoupons := addUsedRecord db.userCoupons userId cp.id cp.endDate }
  | none => db

/-- Creation of the USED voucher usage record when a voucher was applied
(lines 180-190). -/
def markUsedVoucher (db : DB) (userId : Nat) (v : Option Voucher) : DB :=
  match v with
  | some vc => { db with userVouchers := addUsedRecord db.userVouchers userId vc.id vc.endDate }
  | none => db

/-- The `$transaction` block of createTransaction (lines 103-193), executed
against the current database `dbCur` while `tt` is the ticket-type row read
BEFORE the block (line 36): guarded seat write, row insertion, points
debit, usage-record creation.  Any error rolls the whole block back. -/
def createCommit (dbCur : DB) (now : Int) (userId eventId : Nat) (tt : TicketType)
    (quantity pointsUsed : Nat) (c : Option Coupon) (v : Option Voucher)
    (totalAmount finalAmount : Int) : Except ApiErr (DB × Booking) :=
  if dbCur.ticketType.id = tt.id ∧ (quantity : Int) ≤ dbCur.ticketType.availableSeats then
    match decrementUserPoints
        (insertBooking (reserveSeatsWrite dbCur tt quantity)
          (newBooking dbCur now userId eventId tt quantity pointsUsed c v totalAmount finalAmount))
        userId pointsUsed with
    | Except.error e => Except.error e
    | Except.ok db3 =>
      Except.ok (markUsedVoucher (markUsedCoupon db3 userId c) userId v,
        newBooking dbCur now userId eventId tt quantity pointsUsed c v totalAmount finalAmount)
  else Except.error ApiErr.recordNotFound

/-- createTransaction (lines 18-194) with the read phase and the write phase
split over two database states: all reads (user, ticket type with its seat
count, coupon and voucher tables) are served from `dbRead`, while the
`$transaction` block commits against `dbCur`.  The sequential service call
is `createTransactionAt db db …`; a race interleaves a second request's
block after the first commit with both read phases served from the original
state. -/
def createTransactionAt (dbRead dbCur : DB) (now : Int) (userId eventId : Nat)
    (d : CreateTransactionDto) : Except ApiErr (DB × Booking) :=
  match dbRead.users userId with
  | none => Except.error ApiErr.userNotFound
  | some userPoints =>
    if ¬(dbRead.ticketType.id = d.ticketTypeId ∧ dbRead.ticketType.deleted = false) then
      Except.error ApiErr.ticketTypeNotFound
    else if dbRead.ticketType.event.id ≠ eventId then
      Except.error ApiErr.ticketTypeWrongEvent
    else if dbRead.ticketType.event.published = false then
      Except.error ApiErr.eventNotPublished
    else if dbRead.ticketType.event.endDate < now then
      Except.error ApiErr.eventExpired
    else if dbRead.ticketType.availableSeats < (d.quantity : Int) then
      Except.error ApiErr.notEnoughSeats
    else if pointsInsufficient d.pointsUsed userPoints then
      Except.error ApiErr.insufficientPoints
    else
      match applyDiscounts dbRead now userId eventId d.couponCode d.voucherCode with
      | Except.error e => Except.error e
      | Except.ok cv =>
        if dbRead.ticketType.price ≠ 0 ∧
            finalAmountOf dbRead.ticketType d.quantity (d.pointsUsed.getD 0) cv.1 cv.2 ≤ 0 then
          Except.error ApiErr.invalidFinalAmount
        else
          createCommit dbCur now userId eventId dbRead.ticketType d.quantity (d.pointsUsed.getD 0)
            cv.1 cv.2 (totalAmountOf dbRead.ticketType d.quantity)
            (finalAmountOf dbRead.ticketType d.quantity (d.pointsUsed.getD 0) cv.1 cv.2)

/-- createTransaction as the service runs it sequentially: read phase and
unit of work against the same state. -/
def createTransaction (db : DB) (now : Int) (userId eventId : Nat)
    (d : CreateTransactionDto) : Except ApiErr (DB × Booking) :=
  createTransactionAt db db now userId eventId d

/-- The validation prefix of createTransaction (lines 27-89) succeeding:
user exists, ticket type matches and is live, event matches, is published
and not ended, enough seats at the read, points sufficient, and both
discount codes resolve. -/
def createPreChecksOk (db : DB) (now : Int) (userId eventId : Nat)
    (d : CreateTransactionDto) : Bool :=
  (db.users userId).isSome &&
  (db.ticketType.id == d.ticketTypeId && !db.ticketType.deleted) &&
  (db.ticketType.event.id == eventId) &&
  db.ticketType.event.published &&
  !(decide (db.ticketType.event.endDate < now)) &&
  !(decide (db.ticketType.availableSeats < (d.quantity : Int))) &&
  !(pointsInsufficient d.pointsUsed ((db.users userId).getD 0)) &&
  (match applyDiscounts db now userId eventId d.couponCode d.voucherCode with
   | Except.ok _ => true
   | Except.error _ => false)

/-- Where-clause of the `findFirst` in updateTransactionStatus (lines
346-356): id, not soft-deleted, and the organizer filter unless the call is
the automated sweeper. -/
def txMatches (id : Nat) (organizerId : Option Nat) (isAutoProcess : Bool) (t : Booking) : Bool :=
  t.id == id && !t.deleted &&
    (isAutoProcess ||
      (match organizerId with
       | some o => t.organizerId == o
       | none => false))

/-- Status write of updateTransactionStatus (lines 368-390):
`transaction.update({where: {id}})`, touching every field Prisma maintains
(`status` and the auto-managed `updatedAt`). -/
def writeStatus (db : DB) (now : Int) (id : Nat) (s : TxStatus) : DB :=
  { db with transactions := (db.transactions.map
      (fun t => if t.id = id then { t with status := s, updatedAt := now } else t)) }

/-- The `updateMany` reverting a user's USED usage records of a grant to
ACTIVE (lines 774-781 and 785-792). -/
def revertUsedRecords (recs : List UsageRec) (userId grantId : Nat) : List UsageRec :=
  recs.map (fun r =>
    if r.userId = userId ∧ r.grantId = grantId ∧ r.status = UsageStatus.used then
      { r with status := UsageStatus.active }
    else r)

/-- Points credit inside restoreResources (lines 761-770). -/
def incrementUserPoints (db : DB) (userId : Nat) (pointsUsed : Nat) : Except ApiErr DB :=
  if 0 < pointsUsed then
    match db.users userId with
    | none => Except.error ApiErr.recordNotFound
    | some pts => Except.ok { db with users := setPoints db.users userId (pts + (pointsUsed : Int)) }
  else Except.ok db

/-- Seat restore of restoreResources (lines 749-756): unconditional
`increment` by the booking's quantity. -/
def restoreSeats (db : DB) (b : Booking) : DB :=
  { db with ticketType :=
      { db.ticketType with availableSeats := db.ticketType.availableSeats + (b.quantity : Int) } }

/-- Coupon usage-record revert of restoreResources (lines 773-782). -/
def revertCouponRecords (db : DB) (b : Booking) : DB :=
  match b.couponId with
  | some cid => { db with userCoupons := revertUsedRecords db.userCoupons b.userId cid }
  | none => db

/-- Voucher usage-record revert of restoreResources (lines 784-793). -/
def revertVoucherRecords (db : DB) (b : Booking) : DB :=
  match b.voucherId with
  | some vid => { db with userVouchers := revertUsedRecords db.userVouchers b.userId vid }
  | none => db

/-- restoreResources (lines 745-794): inside the same unit of work,
increment the offering's seats by the booking's quantity
(`ticketType.update` throws if the row is missing), credit back the points
when positive, and revert the consumed coupon and voucher usage records
from USED to ACTIVE. -/
def restoreResources (db : DB) (b : Booking) : Except ApiErr DB :=
  if b.ticketTypeId = db.ticketType.id then
    match incrementUserPoints (restoreSeats db b) b.userId b.pointsUsed with
    | Except.error e => Except.error e
    | Except.ok db2 => Except.ok (revertVoucherRecords (revertCouponRecords db2 b) b)
  else Except.error ApiErr.recordNotFound

/-- sendTransactionStatusNotification (lines 797-828): the whole body is
wrapped in try/catch, a mail failure is logged and swallowed, so the call
never produces an error — only a sent or failed notification attempt. -/
def sendTransactionStatusNotification (mailOk : Bool) (txId : Nat) (s : TxStatus) : List Ev :=
  if mailOk then [Ev.notifySent txId s] else [Ev.notifyFailed txId s]

/-- updateTransactionStatus (lines 337-408): organizer guard, lookup,
transition-table check, then one unit of work that writes the status, runs
restoreResources for REJECTED/EXPIRED/CANCELLED, and invokes the e-mail
notification for DONE/REJECTED before the block returns (i.e. before
commit).  The returned event list records the order of effects; `mailOk`
models whether the mail service succeeds. -/
def updateTransactionStatus (db : DB) (now : Int) (id : Nat) (status : TxStatus)
    (organizerId : Option Nat) (isAutoProcess : Bool) (mailOk : Bool) :
    Except ApiErr (DB × Booking × List Ev) :=
  if ¬isAutoProcess ∧ organizerId = none then
    Except.error ApiErr.organizerIdRequired
  else
    match db.transactions.find? (txMatches id organizerId isAutoProcess) with
    | none => Except.error ApiErr.transactionNotFound
    | some b =>
      if isValidStatusTransition b.status status = false then
        Except.error ApiErr.invalidStatusTransition
      else
        match (if reversingStatus status then restoreResources (writeStatus db now id status) b
               else Except.ok (writeStatus db now id status)) with
        | Except.error e => Except.error e
        | Except.ok db2 =>
          Except.ok (db2, { b with status := status, updatedAt := now },
            Ev.statusWrite id status ::
              (if status == TxStatus.done || status == TxStatus.rejected then
                sendTransactionStatusNotification mailOk id status
              else []) ++ [Ev.commit])

/-- uploadPaymentProof (lines 410-446): lookup by id and buyer, require
status `WAITING_FOR_PAYMENT`, require the deadline not to have passed,
re-check the transition table, then attach the proof and move to
`WAITING_FOR_CONFIRMATION`. -/
def uploadPaymentProof (db : DB) (now : Int) (id userId : Nat) (paymentProof : String) :
    Except ApiErr (DB × Booking) :=
  match db.transactions.find? (fun t => t.id == id && t.userId == userId && !t.deleted) with
  | none => Except.error ApiErr.transactionNotFound
  | some t =>
    if t.status ≠ TxStatus.waitingForPayment then
      Except.error ApiErr.notWaitingForPayment
    else if t.expiresAt < now then
      Except.error ApiErr.uploadExpired
    else if isValidStatusTransition t.status TxStatus.waitingForConfirmation = false then
      Except.error ApiErr.invalidStatusTransition
    else
      Except.ok
        ({ db with transactions := (db.transactions.map
            (fun u => if u.id = id then
              { u with paymentProof := some paymentProof,
                       status := TxStatus.waitingForConfirmation, updatedAt := now }
             else u)) },
         { t with paymentProof := some paymentProof,
                  status := TxStatus.waitingForConfirmation, updatedAt := now })

/-- getTransaction (lines 196-255): role-dependent where-clause over the
non-deleted transactions (the `orderBy` and the denormalizing `include`s are
presentational and not modelled). -/
def getTransaction (db : DB) (userId : Nat) (role : String) : List Booking :=
  if role = "CUSTOMER" then
    db.transactions.filter (fun t => !t.deleted && t.userId == userId)
  else if role = "ORGANIZER" then
    db.transactions.filter (fun t => !t.deleted && t.organizerId == userId)
  else
    db.transactions.filter (fun t => !t.deleted)

/-- getTransactionById (lines 257-335): findFirst with the same role
filter, 404 when absent. -/
def getTransactionById (db : DB) (id userId : Nat) (role : String) :
    Except ApiErr Booking :=
  match db.transactions.find? (fun t =>
      t.id == id && !t.deleted &&
      (if role = "CUSTOMER" then t.userId == userId
       else if role = "ORGANIZER" then t.organizerId == userId
       else true)) with
  | none => Except.error ApiErr.transactionNotFound
  | some t => Except.ok t

/-- getExpiredTransactions (lines 636-644): non-deleted bookings awaiting
payment whose deadline is strictly before now. -/
def getExpiredTransactions (db : DB) (now : Int) : List Booking :=
  db.transactions.filter (fun t =>
    t.status == TxStatus.waitingForPayment && decide (t.expiresAt < now) && !t.deleted)

/-- getPendingTransactions (lines 647-657): non-deleted bookings awaiting
confirmation last updated strictly before three days ago. -/
def getPendingTransactions (db : DB) (now : Int) : List Booking :=
  db.transactions.filter (fun t =>
    t.status == TxStatus.waitingForConfirmation &&
    decide (t.updatedAt < now - 3 * 24 * 60 * 60 * 1000) && !t.deleted)

/-- Operations of the booking engine, for reasoning about arbitrary
sequences of service calls. -/
inductive Op where
  | createTx (now : Int) (userId eventId : Nat) (d : CreateTransactionDto)
  | updateStatus (now : Int) (id : Nat) (status : TxStatus)
      (organizerId : Option Nat) (isAutoProcess mailOk : Bool)
  | uploadProof (now : Int) (id userId : Nat) (paymentProof : String)

/-- One service call: a failed call (thrown ApiError or rolled-back unit of
work) leaves the database unchanged. -/
def step (db : DB) : Op → DB
  | Op.createTx now u e d =>
    match createTransaction db now u e d with
    | Except.ok r => r.1
    | Except.error _ => db
  | Op.updateStatus now id s org auto mail =>
    match updateTransactionStatus db now id s org auto mail with
    | Except.ok r => r.1
    | Except.error _ => db
  | Op.uploadProof now id u p =>
    match uploadPaymentProof db now id u p with
    | Except.ok r => r.1
    | Except.error _ => db

/-- A sequence of service calls. -/
def run (db : DB) (ops : List Op) : DB :=
  ops.foldl step db

/-- Seats still held by a booking of the given offering: its quantity while
it is in a created, non-reversed status. -/
def contrib (ttid : Nat) (t : Booking) : Int :=
  if t.ticketTypeId = ttid ∧ activeStatus t.status = true then (t.quantity : Int) else 0

/-- Total seats currently held by bookings of the given offering. -/
def outstanding (ttid : Nat) (l : List Booking) : Int :=
  (l.map (contrib ttid)).sum

/-- Ledger bookkeeping invariant: booking ids are fresh and distinct, the
seat counter is non-negative, and counter plus outstanding reservations
equals the offering's capacity. -/
def LedgerInv (db : DB) : Prop :=
  (∀ b ∈ db.transactions, b.id < db.nextId) ∧
  (db.transactions.map Booking.id).Nodup ∧
  0 ≤ db.ticketType.availableSeats ∧
  db.ticketType.availableSeats + outstanding db.ticketType.id db.transactions =
    db.ticketType.totalSeats

/-- Notification attempt recognizer. -/
def isNotifyEv : Ev → Bool
  | Ev.notifySent _ _ => true
  | Ev.notifyFailed _ _ => true
  | _ => false

/-- Commit recognizer. -/
def isCommitEv : Ev → Bool
  | Ev.commit => true
  | _ => false

/-- Every notification attempt in the trace happens after the unit of work
committed: no notification occurs before the first commit event. -/
def notifiedAfterCommit (tr : List Ev) : Bool :=
  (tr.takeWhile (fun e => !isCommitEv e)).all (fun e => !isNotifyEv e)

/-- Some notification attempt happens strictly before the commit of the
unit of work. -/
def hasNotifyBeforeCommit (tr : List Ev) : Bool :=
  (tr.takeWhile (fun e => !isCommitEv e)).any isNotifyEv

/-- Two createTransaction requests racing on the same offering: both read
phases run against `db0` (each request's in-memory `ticketType` row is the
`db0` one), the first request's unit of work commits, then the second's
unit of work runs against the committed state.  Returns both outcomes and
the final database. -/
def createTransactionRace (db0 : DB) (now : Int) (u1 e1 : Nat) (d1 : CreateTransactionDto)
    (u2 e2 : Nat) (d2 : CreateTransactionDto) :
    Except ApiErr (DB × Booking) × Except ApiErr (DB × Booking) × DB :=
  match createTransactionAt db0 db0 now u1 e1 d1 with
  | Except.ok r1 =>
    match createTransactionAt db0 r1.1 now u2 e2 d2 with
    | Except.ok r2 => (Except.ok r1, Except.ok r2, r2.1)
    | Except.error e2' => (Except.ok r1, Except.error e2', r1.1)
  | Except.error e1' =>
    match createTransactionAt db0 db0 now u2 e2 d2 with
    | Except.ok r2 => (Except.error e1', Except.ok r2, r2.1)
    | Except.error e2' => (Except.error e1', Except.error e2', db0)

/-! Concrete fixtures used to instantiate the theorems below. -/

/-- Sample coupon code. -/
def exCouponCode : String := "SAVE"

/-- Sample voucher code. -/
def exVoucherCode : String := "EVV"

/-- Sample payment-proof reference. -/
def exProofRef : String := "receipt-1"

/-- A role string that is neither CUSTOMER nor ORGANIZER. -/
def exRoleAdmin : String := "ADMIN"

/-- Sample published event owned by organizer 9, ending far in the future. -/
def exEvent : Event :=
  { id := 1, organizerId := 9, published := true, endDate := 1000000000 }

/-- Sample offering: 10 seats at price 1000. -/
def exTT : TicketType :=
  { id := 5, event := exEvent, price := 1000, totalSeats := 10,
    availableSeats := 10, deleted := false }

/-- Users: buyer 1 with 500 points, organizer 9 with 0 points. -/
def exUsers : Nat → Option Int :=
  fun u => if u = 1 then some 500 else if u = 9 then some 0 else none

/-- Sample coupon grant. -/
def exCoupon : Coupon :=
  { id := 11, code := exCouponCode, discountValue := 100, usageLimit := 5,
    startDate := 0, endDate := 900000000, deleted := false }

/-- Sample voucher grant for event 1. -/
def exVoucher : Voucher :=
  { id := 21, code := exVoucherCode, eventId := 1, discountValue := 50,
    usageLimit := 5, startDate := 0, endDate := 900000000, deleted := false }

/-- Fresh database: the offering just created, no bookings. -/
def exDb : DB :=
  { users := exUsers, ticketType := exTT, coupons := [exCoupon],
    vouchers := [exVoucher], userCoupons := [], userVouchers := [],
    transactions := [], nextId := 100 }

/-- Create request without points or codes. -/
def exDtoPlain : CreateTransactionDto :=
  { ticketTypeId := 5, quantity := 2, pointsUsed := none,
    couponCode := none, voucherCode := none }

/-- Create request with points, coupon and voucher. -/
def exDtoDisc : CreateTransactionDto :=
  { ticketTypeId := 5, quantity := 2, pointsUsed := some 100,
    couponCode := some exCouponCode, voucherCode := some exVoucherCode }

/-- Create request for a single seat, no discounts. -/
def exDtoOne : CreateTransactionDto :=
  { ticketTypeId := 5, quantity := 1, pointsUsed := none,
    couponCode := none, voucherCode := none }

/-- Create request with only a coupon. -/
def exDtoCoupon : CreateTransactionDto :=
  { ticketTypeId := 5, quantity := 1, pointsUsed := none,
    couponCode := some exCouponCode, voucherCode := none }

/-- A booking awaiting confirmation, with points and a coupon consumed. -/
def exBookingWFC : Booking :=
  { id := 50, userId := 1, organizerId := 9, eventId := 1, ticketTypeId := 5,
    status := TxStatus.waitingForConfirmation, quantity := 2, unitPrice := 1000,
    totalAmount := 2000, pointsUsed := 100, couponId := some 11, voucherId := none,
    finalAmount := 1900, paymentProof := none, expiresAt := 7200000,
    createdAt := 0, updatedAt := 0, deleted := false }

/-- A booking awaiting payment. -/
def exBookingWFP : Booking :=
  { id := 51, userId := 1, organizerId := 9, eventId := 1, ticketTypeId := 5,
    status := TxStatus.waitingForPayment, quantity := 2, unitPrice := 1000,
    totalAmount := 2000, pointsUsed := 0, couponId := none, voucherId := none,
    finalAmount := 2000, paymentProof := none, expiresAt := 7200000,
    createdAt := 0, updatedAt := 0, deleted := false }

/-- Database holding the awaiting-confirmation booking and its consumed
coupon usage record. -/
def exDbWFC : DB :=
  { exDb with
    ticketType := { exTT with availableSeats := 8 },
    transactions := [exBookingWFC],
    userCoupons := [{ userId := 1, grantId := 11, status := UsageStatus.used,
                      expiresAt := 900000000 }] }

/-- Database holding the awaiting-payment booking. -/
def exDbWFP : DB :=
  { exDb with
    ticketType := { exTT with availableSeats := 8 },
    transactions := [exBookingWFP] }

/-- Database holding two bookings of different buyers and organizers. -/
def exDbTxs : DB :=
  { exDb with
    transactions :=
      [exBookingWFC, { exBookingWFP with id := 52, userId := 2, organizerId := 7 }] }

/-- Offering reduced to price 100. -/
def exDbCheap : DB := { exDb with ticketType := { exTT with price := 100 } }

/-- Free offering. -/
def exDbFree : DB := { exDb with ticketType := { exTT with price := 0 } }

/-- Offering with two remaining seats. -/
def exDbTwoSeats : DB :=
  { exDb with
    ticketType := { exTT with totalSeats := 2, availableSeats := 2 } }

/-- Offering with one remaining seat. -/
def exDbOneSeat : DB :=
  { exDb with
    ticketType := { exTT with totalSeats := 1, availableSeats := 1 } }

/-- Coupon grant whose usage limit is exhausted. -/
def exDbLimit : DB :=
  { exDb with
    coupons := [{ exCoupon with usageLimit := 0 }] }

/-- Buyer 1 already holds a USED record of the coupon. -/
def exDbUsed : DB :=
  { exDb with
    userCoupons := [{ userId := 1, grantId := 11, status := UsageStatus.used,
                      expiresAt := 900000000 }] }

/-- Result of a successful discounted create. -/
def exCreateRes : Except ApiErr (DB × Booking) :=
  createTransaction exDb 0 1 1 exDtoDisc

/-- Database after the discounted create. -/
def exCreateDb : DB :=
  match exCreateRes with
  | Except.ok r => r.1
  | Except.error _ => exDb

/-- Booking produced by the discounted create. -/
def exCreateBk : Booking :=
  match exCreateRes with
  | Except.ok r => r.2
  | Except.error _ => exBookingWFC

/-- Result of a successful create on the free offering. -/
def exFreeRes : Except ApiErr (DB × Booking) :=
  createTransaction exDbFree 0 1 1 exDtoDisc

/-- Booking produced by the free create. -/
def exFreeBk : Booking :=
  match exFreeRes with
  | Except.ok r => r.2
  | Except.error _ => exBookingWFC

/-- Database after the free create. -/
def exFreeDb : DB :=
  match exFreeRes with
  | Except.ok r => r.1
  | Except.error _ => exDbFree

/-- Result of reversing the awaiting-confirmation booking (REJECTED). -/
def exRevRes : Except ApiErr (DB × Booking × List Ev) :=
  updateTransactionStatus exDbWFC 99 50 TxStatus.rejected (some 9) false true

/-- Database after the reversal. -/
def exRevDb : DB :=
  match exRevRes with
  | Except.ok r => r.1
  | Except.error _ => exDbWFC

/-- Booking value returned by the reversal. -/
def exRevBk : Booking :=
  match exRevRes with
  | Except.ok r => r.2.1
  | Except.error _ => exBookingWFC

/-- Trace of the reversal. -/
def exRevTr : List Ev :=
  match exRevRes with
  | Except.ok r => r.2.2
  | Except.error _ => []

/-- Result of approving the awaiting-confirmation booking (DONE), mail up. -/
def exDoneRes : Except ApiErr (DB × Booking × List Ev) :=
  updateTransactionStatus exDbWFC 99 50 TxStatus.done (some 9) false true

/-- Result of the same approval with the mail service failing. -/
def exDoneResFail : Except ApiErr (DB × Booking × List Ev) :=
  updateTransactionStatus exDbWFC 99 50 TxStatus.done (some 9) false false

/-- Trace of the approval. -/
def exDoneTr : List Ev :=
  match exDoneRes with
  | Except.ok r => r.2.2
  | Except.error _ => []

/-- Did the approval succeed? -/
def exDoneOk : Bool :=
  match exDoneRes with
  | Except.ok _ => true
  | Except.error _ => false

/-- Database after the approval. -/
def exDoneDb : DB :=
  match exDoneRes with
  | Except.ok r => r.1
  | Except.error _ => exDbWFC

/-- Booking returned by the approval. -/
def exDoneBk : Booking :=
  match exDoneRes with
  | Except.ok r => r.2.1
  | Except.error _ => exBookingWFC

/-- Result of a successful proof upload. -/
def exUpRes : Except ApiErr (DB × Booking) :=
  uploadPaymentProof exDbWFP 100 51 1 exProofRef

/-- Booking returned by the proof upload. -/
def exUpBk : Booking :=
  match exUpRes with
  | Except.ok r => r.2
  | Except.error _ => exBookingWFP

/-- Success recognizer for create results. -/
def isOkCreate : Except ApiErr (DB × Booking) → Bool :=
  fun r => match r with
  | Except.ok _ => true
  | Except.error _ => false

/-- Race of two single-seat creates on the two-seat offering. -/
def exRace2 : Except ApiErr (DB × Booking) × Except ApiErr (DB × Booking) × DB :=
  createTransactionRace exDbTwoSeats 0 1 1 exDtoOne 1 1 exDtoOne

/-- Race of two single-seat creates on the one-seat offering. -/
def exRace1 : Except ApiErr (DB × Booking) × Except ApiErr (DB × Booking) × DB :=
  createTransactionRace exDbOneSeat 0 1 1 exDtoOne 1 1 exDtoOne

/-- Operation sequence: create two seats, then the sweeper cancels. -/
def exOps : List Op :=
  [Op.createTx 0 1 1 exDtoPlain,
   Op.updateStatus 10 100 TxStatus.cancelled none true true]

/-! Helper lemmas. -/

/-- A booking matched by the status-update where-clause carries the
requested id. -/
theorem txMatches_id {id : Nat} {org : Option Nat} {auto : Bool} {t : Booking}
    (h : txMatches id org auto t = true) : t.id = id := by
  simp only [txMatches, Bool.and_eq_true, beq_iff_eq] at h
  exact h.1.1

/-- A manual status update with no organizer id matches no booking. -/
theorem txMatches_none {id : Nat} {t : Booking}
    : txMatches id none false t = false := by
  simp [txMatches]

/-- incrementUserPoints can only fail with the Prisma record-not-found
error. -/
theorem incPoints_error {db : DB} {u p : Nat} {e : ApiErr}
    (h : incrementUserPoints db u p = Except.error e) : e = ApiErr.recordNotFound := by
  unfold incrementUserPoints at h
  split at h
  · split at h
    · exact (Except.error.inj h).symm
    · exact Except.noConfusion h
  · exact Except.noConfusion h

/-- decrementUserPoints can only fail with the Prisma record-not-found
error. -/
theorem decPoints_error {db : DB} {u p : Nat} {e : ApiErr}
    (h : decrementUserPoints db u p = Except.error e) : e = ApiErr.recordNotFound := by
  unfold decrementUserPoints at h
  split at h
  · split at h
    · exact (Except.error.inj h).symm
    · exact Except.noConfusion h
  · exact Except.noConfusion h

/-- restoreResources can only fail with the Prisma record-not-found error. -/
theorem restore_error {db : DB} {b : Booking} {e : ApiErr}
    (h : restoreResources db b = Except.error e) : e = ApiErr.recordNotFound := by
  unfold restoreResources at h
  split at h
  · split at h
    · rename_i e' heq
      have h1 : e' = e := Except.error.inj h
      have h2 : e' = ApiErr.recordNotFound := incPoints_error heq
      rw [← h1, h2]
    · exact Except.noConfusion h
  · exact (Except.error.inj h).symm

/-- Projections of markUsedCoupon. -/
theorem markC_proj (db : DB) (u : Nat) (c : Option Coupon) :
    (markUsedCoupon db u c).ticketType = db.ticketType ∧
    (markUsedCoupon db u c).transactions = db.transactions ∧
    (markUsedCoupon db u c).nextId = db.nextId ∧
    (markUsedCoupon db u c).users = db.users ∧
    (markUsedCoupon db u c).userVouchers = db.userVouchers ∧
    (markUsedCoupon db u c).userCoupons =
      (match c with
       | some cp => addUsedRecord db.userCoupons u cp.id cp.endDate
       | none => db.userCoupons) := by
  cases c <;> exact ⟨rfl, rfl, rfl, rfl, rfl, rfl⟩

/-- Projections of markUsedVoucher. -/
theorem markV_proj (db : DB) (u : Nat) (v : Option Voucher) :
    (markUsedVoucher db u v).ticketType = db.ticketType ∧
    (markUsedVoucher db u v).transactions = db.transactions ∧
    (markUsedVoucher db u v).nextId = db.nextId ∧
    (markUsedVoucher db u v).users = db.users ∧
    (markUsedVoucher db u v).userCoupons = db.userCoupons ∧
    (markUsedVoucher db u v).userVouchers =
      (match v with
       | some vc => addUsedRecord db.userVouchers u vc.id vc.endDate
       | none => db.userVouchers) := by
  cases v <;> exact ⟨rfl, rfl, rfl, rfl, rfl, rfl⟩

/-- Projections of revertCouponRecords. -/
theorem revC_proj (db : DB) (b : Booking) :
    (revertCouponRecords db b).ticketType = db.ticketType ∧
    (revertCouponRecords db b).transactions = db.transactions ∧
    (revertCouponRecords db b).nextId = db.nextId ∧
    (revertCouponRecords db b).users = db.users ∧
    (revertCouponRecords db b).userVouchers = db.userVouchers ∧
    (revertCouponRecords db b).userCoupons =
      (match b.couponId with
       | some cid => revertUsedRecords db.userCoupons b.userId cid
       | none => db.userCoupons) := by
  unfold revertCouponRecords
  cases b.couponId <;> exact ⟨rfl, rfl, rfl, rfl, rfl, rfl⟩

/-- Projections of revertVoucherRecords. -/
theorem revV_proj (db : DB) (b : Booking) :
    (revertVoucherRecords db b).ticketType = db.ticketType ∧
    (revertVoucherRecords db b).transactions = db.transactions ∧
    (revertVoucherRecords db b).nextId = db.nextId ∧
    (revertVoucherRecords db b).users = db.users ∧
    (revertVoucherRecords db b).userCoupons = db.userCoupons ∧
    (revertVoucherRecords db b).userVouchers =
      (match b.voucherId with
       | some vid => revertUsedRecords db.userVouchers b.userId vid
       | none => db.userVouchers) := by
  unfold revertVoucherRecords
  cases b.voucherId <;> exact ⟨rfl, rfl, rfl, rfl, rfl, rfl⟩

/-- Successful points debit: everything but the buyer's balance is
untouched; the balance drops by the debited amount when positive. -/
theorem decPoints_ok {db : DB} {u pu : Nat} {db' : DB}
    (h : decrementUserPoints db u pu = Except.ok db') :
    db'.ticketType = db.ticketType ∧ db'.transactions = db.transactions ∧
    db'.nextId = db.nextId ∧ db'.userCoupons = db.userCoupons ∧
    db'.userVouchers = db.userVouchers ∧
    ((0 < pu ∧ ∃ pts, db.users u = some pts ∧
        db'.users = setPoints db.users u (pts - (pu : Int))) ∨
     (¬0 < pu ∧ db'.users = db.users)) := by
  unfold decrementUserPoints at h
  split at h
  · rename_i hpos
    split at h
    · exact Except.noConfusion h
    · rename_i pts heq
      cases Except.ok.inj h
      exact ⟨rfl, rfl, rfl, rfl, rfl, Or.inl ⟨hpos, pts, heq, rfl⟩⟩
  · rename_i hneg
    cases Except.ok.inj h
    exact ⟨rfl, rfl, rfl, rfl, rfl, Or.inr ⟨hneg, rfl⟩⟩

/-- Successful points credit: everything but the buyer's balance is
untouched; the balance rises by the credited amount when positive. -/
theorem incPoints_ok {db : DB} {u pu : Nat} {db' : DB}
    (h : incrementUserPoints db u pu = Except.ok db') :
    db'.ticketType = db.ticketType ∧ db'.transactions = db.transactions ∧
    db'.nextId = db.nextId ∧ db'.userCoupons = db.userCoupons ∧
    db'.userVouchers = db.userVouchers ∧
    ((0 < pu ∧ ∃ pts, db.users u = some pts ∧
        db'.users = setPoints db.users u (pts + (pu : Int))) ∨
     (¬0 < pu ∧ db'.users = db.users)) := by
  unfold incrementUserPoints at h
  split at h
  · rename_i hpos
    split at h
    · exact Except.noConfusion h
    · rename_i pts heq
      cases Except.ok.inj h
      exact ⟨rfl, rfl, rfl, rfl, rfl, Or.inl ⟨hpos, pts, heq, rfl⟩⟩
  · rename_i hneg
    cases Except.ok.inj h
    exact ⟨rfl, rfl, rfl, rfl, rfl, Or.inr ⟨hneg, rfl⟩⟩

/-- Inversion of a successful create unit of work: the guard held against
the current seat count, the returned booking is the inserted row, the seat
counter was overwritten with the stale read minus quantity, the row was
prepended with a fresh id, usage records were created for the applied
grants, and points were debited exactly when positive. -/
theorem createCommit_ok {dbCur : DB} {now : Int} {userId eventId : Nat} {tt : TicketType}
    {q pu : Nat} {c : Option Coupon} {v : Option Voucher} {tot fin : Int}
    {db' : DB} {bk : Booking}
    (h : createCommit dbCur now userId eventId tt q pu c v tot fin = Except.ok (db', bk)) :
    dbCur.ticketType.id = tt.id ∧ (q : Int) ≤ dbCur.ticketType.availableSeats ∧
    bk = newBooking dbCur now userId eventId tt q pu c v tot fin ∧
    db'.ticketType = { dbCur.ticketType with availableSeats := tt.availableSeats - (q : Int) } ∧
    db'.transactions = bk :: dbCur.transactions ∧
    db'.nextId = dbCur.nextId + 1 ∧
    db'.userCoupons = (markUsedCoupon dbCur userId c).userCoupons ∧
    db'.userVouchers = (markUsedVoucher dbCur userId v).userVouchers ∧
    ((0 < pu ∧ ∃ pts, dbCur.users userId = some pts ∧
        db'.users = setPoints dbCur.users userId (pts - (pu : Int))) ∨
     (¬0 < pu ∧ db'.users = dbCur.users)) := by
  unfold createCommit at h
  split at h
  · rename_i hg
    split at h
    · exact Except.noConfusion h
    · rename_i db3 heq
      obtain ⟨hdb, hbk⟩ := Prod.mk.inj (Except.ok.inj h)
      obtain ⟨d3tt, d3tx, d3next, d3uc, d3uv, d3users⟩ := decPoints_ok heq
      obtain ⟨mctt, mctx, mcnext, mcusers, mcuv, mcuc⟩ := markC_proj db3 userId c
      obtain ⟨mvtt, mvtx, mvnext, mvusers, mvuc, mvuv⟩ :=
        markV_proj (markUsedCoupon db3 userId c) userId v
      subst hdb
      subst hbk
      refine ⟨hg.1, hg.2, rfl, ?_, ?_, ?_, ?_, ?_, ?_⟩
      · rw [mvtt, mctt, d3tt]
        rfl
      · rw [mvtx, mctx, d3tx]
        rfl
      · rw [mvnext, mcnext, d3next]
        rfl
      · rw [mvuc, mcuc]
        have hcc := (markC_proj dbCur userId c).2.2.2.2.2
        rw [hcc]
        cases c <;> simp [addUsedRecord, d3uc, insertBooking, reserveSeatsWrite]
      · rw [mvuv]
        have hvv := (markV_proj dbCur userId v).2.2.2.2.2
        rw [hvv, mcuv]
        cases v <;> simp [addUsedRecord, d3uv, insertBooking, reserveSeatsWrite]
      · rw [mvusers, mcusers]
        rcases d3users with ⟨hpos, pts, hu, hs⟩ | ⟨hneg, hs⟩
        · exact Or.inl ⟨hpos, pts, hu, hs⟩
        · exact Or.inr ⟨hneg, hs⟩
  · exact Except.noConfusion h

/-- Inversion of a successful createTransaction (split read/commit states):
every validation of the read phase passed, the discounts resolved, the
final-amount rule held, and the unit of work committed. -/
theorem createAt_ok {dbRead dbCur : DB} {now : Int} {u e : Nat} {d : CreateTransactionDto}
    {db' : DB} {bk : Booking}
    (h : createTransactionAt dbRead dbCur now u e d = Except.ok (db', bk)) :
    ∃ userPoints cv,
      dbRead.users u = some userPoints ∧
      dbRead.ticketType.id = d.ticketTypeId ∧ dbRead.ticketType.deleted = false ∧
      dbRead.ticketType.event.id = e ∧
      dbRead.ticketType.event.published = true ∧
      ¬dbRead.ticketType.event.endDate < now ∧
      ¬dbRead.ticketType.availableSeats < (d.quantity : Int) ∧
      pointsInsufficient d.pointsUsed userPoints = false ∧
      applyDiscounts dbRead now u e d.couponCode d.voucherCode = Except.ok cv ∧
      ¬(dbRead.ticketType.price ≠ 0 ∧
          finalAmountOf dbRead.ticketType d.quantity (d.pointsUsed.getD 0) cv.1 cv.2 ≤ 0) ∧
      createCommit dbCur now u e dbRead.ticketType d.quantity (d.pointsUsed.getD 0) cv.1 cv.2
        (totalAmountOf dbRead.ticketType d.quantity)
        (finalAmountOf dbRead.ticketType d.quantity (d.pointsUsed.getD 0) cv.1 cv.2) =
        Except.ok (db', bk) := by
  unfold createTransactionAt at h
  split at h
  · exact Except.noConfusion h
  · rename_i userPoints hu
    split_ifs at h with h1 h2 h3 h4 h5 h6
    split at h
    · exact Except.noConfusion h
    · rename_i cv hcv
      split_ifs at h with h7
      have h3' : dbRead.ticketType.event.published = true := by
        revert h3
        cases dbRead.ticketType.event.published <;> simp
      have h6' : pointsInsufficient d.pointsUsed userPoints = false := by
        revert h6
        cases pointsInsufficient d.pointsUsed userPoints <;> simp
      exact ⟨userPoints, cv, hu, h1.1, h1.2, not_ne_iff.mp h2, h3', h4, h5, h6',
        hcv, h7, h⟩

/-- Inversion of a successful restoreResources: the booking referenced the
offering, the seat counter was incremented by the booking's quantity,
points were credited exactly when positive, and the consumed usage records
were reverted; transactions are untouched. -/
theorem restore_ok {db : DB} {b : Booking} {db' : DB}
    (h : restoreResources db b = Except.ok db') :
    b.ticketTypeId = db.ticketType.id ∧
    db'.ticketType = { db.ticketType with
      availableSeats := db.ticketType.availableSeats + (b.quantity : Int) } ∧
    db'.transactions = db.transactions ∧
    db'.nextId = db.nextId ∧
    db'.userCoupons = (revertCouponRecords db b).userCoupons ∧
    db'.userVouchers = (revertVoucherRecords db b).userVouchers ∧
    ((0 < b.pointsUsed ∧ ∃ pts, db.users b.userId = some pts ∧
        db'.users = setPoints db.users b.userId (pts + (b.pointsUsed : Int))) ∨
     (¬0 < b.pointsUsed ∧ db'.users = db.users)) := by
  unfold restoreResources at h
  split at h
  · rename_i htt
    split at h
    · exact Except.noConfusion h
    · rename_i db2 heq
      have hdb := Except.ok.inj h
      obtain ⟨i_tt, i_tx, i_next, i_uc, i_uv, i_users⟩ := incPoints_ok heq
      obtain ⟨rctt, rctx, rcnext, rcusers, rcuv, rcuc⟩ := revC_proj db2 b
      obtain ⟨rvtt, rvtx, rvnext, rvusers, rvuc, rvuv⟩ :=
        revV_proj (revertCouponRecords db2 b) b
      subst hdb
      refine ⟨htt, ?_, ?_, ?_, ?_, ?_, ?_⟩
      · rw [rvtt, rctt, i_tt]
        rfl
      · rw [rvtx, rctx, i_tx]
        rfl
      · rw [rvnext, rcnext, i_next]
        rfl
      · rw [rvuc, rcuc]
        have hcc := (revC_proj db b).2.2.2.2.2
        rw [hcc]
        cases hb : b.couponId <;>
          simp [hb, revertUsedRecords, i_uc, restoreSeats]
      · rw [rvuv]
        have hvv := (revV_proj db b).2.2.2.2.2
        rw [hvv, rcuv]
        cases hb : b.voucherId <;>
          simp [hb, revertUsedRecords, i_uv, restoreSeats]
      · rw [rvusers, rcusers]
        rcases i_users with ⟨hpos, pts, huu, hs⟩ | ⟨hneg, hs⟩
        · exact Or.inl ⟨hpos, pts, huu, hs⟩
        · exact Or.inr ⟨hneg, hs⟩
  · exact Except.noConfusion h

/-- Inversion of a successful updateTransactionStatus: the organizer guard
held, a booking was found, the transition was legal, the status row was
written, restoreResources ran exactly for the reversing statuses, and the
trace is status write, then the notification attempt for DONE/REJECTED,
then commit. -/
theorem updateStatus_ok {db : DB} {now : Int} {id : Nat} {s : TxStatus}
    {org : Option Nat} {auto mail : Bool} {db' : DB} {bk : Booking} {tr : List Ev}
    (h : updateTransactionStatus db now id s org auto mail = Except.ok (db', bk, tr)) :
    ∃ b, ¬(¬auto = true ∧ org = none) ∧
      db.transactions.find? (txMatches id org auto) = some b ∧
      isValidStatusTransition b.status s = true ∧
      bk = { b with status := s, updatedAt := now } ∧
      tr = Ev.statusWrite id s ::
        (if s == TxStatus.done || s == TxStatus.rejected then
          sendTransactionStatusNotification mail id s
        else []) ++ [Ev.commit] ∧
      ((reversingStatus s = true ∧
          restoreResources (writeStatus db now id s) b = Except.ok db') ∨
       (reversingStatus s = false ∧ db' = writeStatus db now id s)) := by
  unfold updateTransactionStatus at h
  split at h
  · exact Except.noConfusion h
  · rename_i hg
    split at h
    · exact Except.noConfusion h
    · rename_i b hfind
      split at h
      · exact Except.noConfusion h
      · rename_i hvalid
        split at h
        · exact Except.noConfusion h
        · rename_i db2 heq
          have h1 := Except.ok.inj h
          have hdb : db2 = db' := congrArg Prod.fst h1
          have h2 := congrArg Prod.snd h1
          have hbk : { b with status := s, updatedAt := now } = bk := congrArg Prod.fst h2
          have htr := congrArg Prod.snd h2
          have hval : isValidStatusTransition b.status s = true := by
            revert hvalid
            cases isValidStatusTransition b.status s <;> simp
          refine ⟨b, hg, hfind, hval, hbk.symm, htr.symm, ?_⟩
          by_cases hrev : reversingStatus s = true
          · rw [if_pos hrev] at heq
            rw [hdb] at heq
            exact Or.inl ⟨hrev, heq⟩
          · rw [if_neg hrev] at heq
            have hrev' : reversingStatus s = false := by
              revert hrev
              cases reversingStatus s <;> simp
            exact Or.inr ⟨hrev', ((Except.ok.inj heq).trans hdb).symm⟩

/-- Inversion of validateCoupon success: the returned grant is the stored
row found by code, live, inside its window, under its usage limit and not
yet consumed by the requesting user. -/
theorem validateCoupon_ok {db : DB} {now : Int} {code : String} {uid : Nat} {c : Coupon}
    (h : validateCoupon db now code uid = Except.ok c) :
    c ∈ db.coupons ∧ c.code = code ∧ c.deleted = false ∧
    c.startDate ≤ now ∧ now ≤ c.endDate ∧
    usedCouponCount db c.id < c.usageLimit ∧
    ∀ r ∈ db.userCoupons,
      ¬(r.userId = uid ∧ r.grantId = c.id ∧ r.status = UsageStatus.used) := by
  unfold validateCoupon at h
  split at h
  · exact Except.noConfusion h
  · rename_i coupon hfind
    split_ifs at h with w1 w2 w3
    cases Except.ok.inj h
    have hmem := List.mem_of_find?_eq_some hfind
    have hpred := List.find?_some hfind
    simp only [Bool.and_eq_true, beq_iff_eq, Bool.not_eq_true'] at hpred
    push_neg at w1
    refine ⟨hmem, hpred.1, hpred.2, w1.1, w1.2, not_le.mp w2, ?_⟩
    intro r hr hcon
    apply w3
    rw [List.any_eq_true]
    exact ⟨r, hr, by simp [hcon.1, hcon.2.1, hcon.2.2]⟩

/-- Inversion of validateVoucher success. -/
theorem validateVoucher_ok {db : DB} {now : Int} {code : String} {e uid : Nat} {v : Voucher}
    (h : validateVoucher db now code e uid = Except.ok v) :
    v ∈ db.vouchers ∧ v.code = code ∧ v.eventId = e ∧ v.deleted = false ∧
    v.startDate ≤ now ∧ now ≤ v.endDate ∧
    usedVoucherCount db v.id < v.usageLimit ∧
    ∀ r ∈ db.userVouchers,
      ¬(r.userId = uid ∧ r.grantId = v.id ∧ r.status = UsageStatus.used) := by
  unfold validateVoucher at h
  split at h
  · exact Except.noConfusion h
  · rename_i voucher hfind
    split_ifs at h with w1 w2 w3
    cases Except.ok.inj h
    have hmem := List.mem_of_find?_eq_some hfind
    have hpred := List.find?_some hfind
    simp only [Bool.and_eq_true, beq_iff_eq, Bool.not_eq_true'] at hpred
    push_neg at w1
    refine ⟨hmem, hpred.1.1, hpred.1.2, hpred.2, w1.1, w1.2, not_le.mp w2, ?_⟩
    intro r hr hcon
    apply w3
    rw [List.any_eq_true]
    exact ⟨r, hr, by simp [hcon.1, hcon.2.1, hcon.2.2]⟩

/-- Inversion of applyDiscounts success: each supplied code resolved to its
grant and the returned pair carries exactly the resolved grants. -/
theorem applyDiscounts_ok {db : DB} {now : Int} {u e : Nat} {cc vc : Option String}
    {cv : Option Coupon × Option Voucher}
    (h : applyDiscounts db now u e cc vc = Except.ok cv) :
    (cc = none → cv.1 = none) ∧
    (∀ s, cc = some s → ∃ c, validateCoupon db now s u = Except.ok c ∧ cv.1 = some c) ∧
    (vc = none → cv.2 = none) ∧
    (∀ s, vc = some s → ∃ v, validateVoucher db now s e u = Except.ok v ∧ cv.2 = some v) := by
  unfold applyDiscounts at h
  split at h
  · split at h
    · cases Except.ok.inj h
      exact ⟨fun _ => rfl, fun s hs => Option.noConfusion hs,
        fun _ => rfl, fun s hs => Option.noConfusion hs⟩
    · rename_i vs
      split at h
      · exact Except.noConfusion h
      · rename_i v hv
        cases Except.ok.inj h
        exact ⟨fun _ => rfl, fun s hs => Option.noConfusion hs,
          fun hn => Option.noConfusion hn,
          fun s hs => ⟨v, by rw [← Option.some.inj hs]; exact hv, rfl⟩⟩
  · rename_i cs
    split at h
    · exact Except.noConfusion h
    · rename_i c hc
      split at h
      · cases Except.ok.inj h
        exact ⟨fun hn => Option.noConfusion hn,
          fun s hs => ⟨c, by rw [← Option.some.inj hs]; exact hc, rfl⟩,
          fun _ => rfl, fun s hs => Option.noConfusion hs⟩
      · rename_i vs
        split at h
        · exact Except.noConfusion h
        · rename_i v hv
          cases Except.ok.inj h
          exact ⟨fun hn => Option.noConfusion hn,
            fun s hs => ⟨c, by rw [← Option.some.inj hs]; exact hc, rfl⟩,
            fun hn => Option.noConfusion hn,
            fun s hs => ⟨v, by rw [← Option.some.inj hs]; exact hv, rfl⟩⟩

/-- When the validation prefix passes and the discounts resolve, a create
reduces to the final-amount rule followed by the unit of work. -/
theorem createAt_reduce {db dbCur : DB} {now : Int} {u e : Nat} {d : CreateTransactionDto}
    (hpre : createPreChecksOk db now u e d = true)
    {cv : Option Coupon × Option Voucher}
    (hd : applyDiscounts db now u e d.couponCode d.voucherCode = Except.ok cv) :
    createTransactionAt db dbCur now u e d =
      if db.ticketType.price ≠ 0 ∧
          finalAmountOf db.ticketType d.quantity (d.pointsUsed.getD 0) cv.1 cv.2 ≤ 0 then
        Except.error ApiErr.invalidFinalAmount
      else
        createCommit dbCur now u e db.ticketType d.quantity (d.pointsUsed.getD 0) cv.1 cv.2
          (totalAmountOf db.ticketType d.quantity)
          (finalAmountOf db.ticketType d.quantity (d.pointsUsed.getD 0) cv.1 cv.2) := by
  unfold createPreChecksOk at hpre
  simp only [Bool.and_eq_true, beq_iff_eq, Bool.not_eq_true', decide_eq_false_iff_not,
    Option.isSome_iff_exists] at hpre
  obtain ⟨⟨⟨⟨⟨⟨⟨⟨pts, hpts⟩, hid, hdel⟩, hev⟩, hpub⟩, hend⟩, hseats⟩, hpuok⟩, -⟩ := hpre
  unfold createTransactionAt
  split
  · rename_i heq
    rw [heq] at hpts
    exact Option.noConfusion hpts
  · rename_i up heq
    have hup : up = pts := by
      rw [heq] at hpts
      exact Option.some.inj hpts
    have hpu' : pointsInsufficient d.pointsUsed up = false := by
      rw [heq] at hpuok
      simp only [Option.getD_some] at hpuok
      exact hpuok
    rw [if_neg (not_not_intro ⟨hid, hdel⟩), if_neg (not_not_intro hev),
      if_neg (by simp [hpub]), if_neg hend, if_neg hseats,
      if_neg (by simp [hpu']), hd]

/-- Coupon discounts are non-negative. -/
theorem couponDisc_nonneg (c : Option Coupon) : 0 ≤ couponDisc c := by
  cases c <;> simp [couponDisc]

/-- Voucher discounts are non-negative. -/
theorem voucherDisc_nonneg (v : Option Voucher) : 0 ≤ voucherDisc v := by
  cases v <;> simp [voucherDisc]

/-- decrementUserPoints succeeds whenever the user row exists. -/
theorem decPoints_succeeds {db : DB} {u : Nat} (pu : Nat) {pts : Int}
    (h : db.users u = some pts) :
    decrementUserPoints db u pu =
      Except.ok (if 0 < pu then { db with users := setPoints db.users u (pts - (pu : Int)) }
                 else db) := by
  unfold decrementUserPoints
  by_cases hp : 0 < pu
  · rw [if_pos hp, h, if_pos hp]
  · rw [if_neg hp, if_neg hp]

/-- createCommit succeeds whenever the guard holds and the buyer row
exists. -/
theorem createCommit_free_ok {dbCur : DB} {now : Int} {userId eventId : Nat}
    {tt : TicketType} {q pu : Nat} {c : Option Coupon} {v : Option Voucher}
    {tot fin : Int} {pts : Int}
    (hid : dbCur.ticketType.id = tt.id) (hq : (q : Int) ≤ dbCur.ticketType.availableSeats)
    (hu : dbCur.users userId = some pts) :
    ∃ db', createCommit dbCur now userId eventId tt q pu c v tot fin =
      Except.ok (db', newBooking dbCur now userId eventId tt q pu c v tot fin) := by
  unfold createCommit
  rw [if_pos ⟨hid, hq⟩]
  have hu2 : (insertBooking (reserveSeatsWrite dbCur tt q)
      (newBooking dbCur now userId eventId tt q pu c v tot fin)).users userId = some pts := hu
  rw [decPoints_succeeds pu hu2]
  exact ⟨_, rfl⟩

/-- A booking's (possibly zero) contribution is non-negative. -/
theorem contrib_nonneg (ttid : Nat) (t : Booking) : 0 ≤ contrib ttid t := by
  unfold contrib
  split
  · exact Int.natCast_nonneg _
  · exact le_refl 0

/-- outstanding over a cons. -/
theorem outstanding_cons (ttid : Nat) (b : Booking) (l : List Booking) :
    outstanding ttid (b :: l) = contrib ttid b + outstanding ttid l := by
  simp [outstanding]

/-- outstanding is non-negative. -/
theorem outstanding_nonneg (ttid : Nat) (l : List Booking) : 0 ≤ outstanding ttid l := by
  induction l with
  | nil => simp [outstanding]
  | cons a l ih =>
    rw [outstanding_cons]
    exact add_nonneg (contrib_nonneg _ _) ih

/-- Mapping a function that fixes every element of a list is the identity. -/
theorem map_id_on {α : Type} (f : α → α) :
    ∀ (l : List α), (∀ x ∈ l, f x = x) → l.map f = l := by
  intro l h
  induction l with
  | nil => rfl
  | cons a l ih =>
    simp only [List.map_cons]
    rw [h a (by simp), ih (fun x hx => h x (by simp [hx]))]

/-- Booking ids survive a by-id update that preserves ids. -/
theorem ids_map_update (id : Nat) (g : Booking → Booking)
    (hg : ∀ t, (g t).id = t.id) (l : List Booking) :
    (l.map (fun t => if t.id = id then g t else t)).map Booking.id =
      l.map Booking.id := by
  induction l with
  | nil => rfl
  | cons a l ih =>
    simp only [List.map_cons, ih]
    by_cases ha : a.id = id
    · rw [if_pos ha, hg]
    · rw [if_neg ha]

/-- find? commutes with a map that does not change the predicate. -/
theorem find?_map_comm {α : Type} (p : α → Bool) (φ : α → α)
    (hp : ∀ t, p (φ t) = p t) :
    ∀ (l : List α), (l.map φ).find? p = (l.find? p).map φ := by
  intro l
  induction l with
  | nil => rfl
  | cons a l ih =>
    cases hpa : p a
    · rw [List.map_cons, List.find?_cons_of_neg _ (by simp [hp a, hpa]),
        List.find?_cons_of_neg _ (by simp [hpa])]
      exact ih
    · rw [List.map_cons, List.find?_cons_of_pos _ (by simp [hp a, hpa]),
        List.find?_cons_of_pos _ hpa]
      rfl

/-- Updating the unique booking with a given id changes the outstanding sum
by exactly that booking's contribution change. -/
theorem outstanding_map_update (ttid id : Nat) (g : Booking → Booking)
    (p : Booking → Bool) (hp : ∀ t, p t = true → t.id = id) :
    ∀ (l : List Booking), (l.map Booking.id).Nodup →
      ∀ b, l.find? p = some b →
      outstanding ttid (l.map (fun t => if t.id = id then g t else t)) =
        outstanding ttid l - contrib ttid b + contrib ttid (g b) := by
  intro l
  induction l with
  | nil =>
    intro _ b hfind
    exact Option.noConfusion hfind
  | cons a l ih =>
    intro hnd b hfind
    have hnd' : (l.map Booking.id).Nodup := (List.nodup_cons.mp (by simpa using hnd)).2
    have hnotin : a.id ∉ l.map Booking.id := (List.nodup_cons.mp (by simpa using hnd)).1
    cases hpa : p a
    · rw [List.find?_cons_of_neg _ (by simp [hpa])] at hfind
      have hbid : b.id = id := hp b (List.find?_some hfind)
      have hbmem := List.mem_of_find?_eq_some hfind
      have haid : ¬a.id = id := by
        intro he
        apply hnotin
        rw [he, ← hbid]
        exact List.mem_map_of_mem _ hbmem
      simp only [List.map_cons, if_neg haid]
      rw [outstanding_cons, outstanding_cons, ih hnd' b hfind]
      ring
    · rw [List.find?_cons_of_pos _ hpa] at hfind
      cases Option.some.inj hfind
      have haid : a.id = id := hp a hpa
      have hmap : l.map (fun t => if t.id = id then g t else t) = l := by
        apply map_id_on
        intro x hx
        rw [if_neg ?_]
        intro he
        apply hnotin
        rw [haid, ← he]
        exact List.mem_map_of_mem _ hx
      simp only [List.map_cons, if_pos haid, hmap]
      rw [outstanding_cons, outstanding_cons]
      ring

/-- A legal transition starts from a status that still holds seats. -/
theorem valid_source_active {c n : TxStatus}
    (h : isValidStatusTransition c n = true) : activeStatus c = true := by
  cases c <;> simp_all [isValidStatusTransition, validTransitions, activeStatus]

/-- Reversing statuses hold no seats. -/
theorem reversing_inactive {s : TxStatus} (h : reversingStatus s = true) :
    activeStatus s = false := by
  cases s <;> simp_all [reversingStatus, activeStatus]

/-- A legal non-reversing target still holds seats. -/
theorem valid_target_active {c s : TxStatus}
    (hv : isValidStatusTransition c s = true) (hr : reversingStatus s = false) :
    activeStatus s = true := by
  cases s <;> cases c <;>
    simp_all [isValidStatusTransition, validTransitions, reversingStatus, activeStatus]

/-- Inversion of a successful proof upload: a matching booking awaiting
payment within its deadline was found and only its row changed. -/
theorem upload_ok {db : DB} {now : Int} {id uid : Nat} {pf : String}
    {db' : DB} {bk : Booking}
    (h : uploadPaymentProof db now id uid pf = Except.ok (db', bk)) :
    ∃ t, db.transactions.find?
        (fun x => x.id == id && x.userId == uid && !x.deleted) = some t ∧
      t.status = TxStatus.waitingForPayment ∧
      db'.ticketType = db.ticketType ∧ db'.nextId = db.nextId ∧
      db'.users = db.users ∧ db'.userCoupons = db.userCoupons ∧
      db'.userVouchers = db.userVouchers ∧
      db'.transactions = db.transactions.map (fun x => if x.id = id then
        { x with paymentProof := some pf, status := TxStatus.waitingForConfirmation,
                 updatedAt := now }
      else x) := by
  unfold uploadPaymentProof at h
  split at h
  · exact Except.noConfusion h
  · rename_i t hfind
    split_ifs at h with s1 s2 s3
    obtain ⟨hdb, hbk⟩ := Prod.mk.inj (Except.ok.inj h)
    subst hdb
    exact ⟨t, hfind, not_not.mp s1, rfl, rfl, rfl, rfl, rfl, rfl⟩

/-- Projections of writeStatus: only the transactions list changes. -/
theorem writeStatus_proj (db : DB) (now : Int) (id : Nat) (s : TxStatus) :
    (writeStatus db now id s).ticketType = db.ticketType ∧
    (writeStatus db now id s).nextId = db.nextId ∧
    (writeStatus db now id s).users = db.users ∧
    (writeStatus db now id s).transactions =
      db.transactions.map (fun t => if t.id = id then
        { t with status := s, updatedAt := now } else t) :=
  ⟨rfl, rfl, rfl, rfl⟩

/-- One service call preserves the ledger bookkeeping invariant. -/
theorem ledgerInv_step (db : DB) (op : Op) (h : LedgerInv db) :
    LedgerInv (step db op) := by
  obtain ⟨hfresh, hnd, hpos, hsum⟩ := h
  cases op with
  | createTx now u e d =>
    simp only [step]
    cases hres : createTransaction db now u e d with
    | error err => exact ⟨hfresh, hnd, hpos, hsum⟩
    | ok r =>
      obtain ⟨db1, bk⟩ := r
      show LedgerInv db1
      obtain ⟨up, cv, _, _, _, _, _, _, _, _, _, _, hcomm⟩ := createAt_ok hres
      obtain ⟨_, hq, hbk, htt, htx, hnext, _, _, _⟩ := createCommit_ok hcomm
      have hbid : bk.id = db.nextId := by rw [hbk]; rfl
      have hbtt : bk.ticketTypeId = db.ticketType.id := by rw [hbk]; rfl
      have hbst : bk.status = TxStatus.waitingForPayment := by rw [hbk]; rfl
      have hbq : bk.quantity = d.quantity := by rw [hbk]; rfl
      have hid1 : db1.ticketType.id = db.ticketType.id := by rw [htt]
      have htot1 : db1.ticketType.totalSeats = db.ticketType.totalSeats := by rw [htt]
      have hav1 : db1.ticketType.availableSeats =
          db.ticketType.availableSeats - (d.quantity : Int) := by rw [htt]
      refine ⟨?_, ?_, ?_, ?_⟩
      · intro x hx
        rw [htx] at hx
        rw [hnext]
        rcases List.mem_cons.mp hx with rfl | hx'
        · rw [hbid]
          omega
        · have := hfresh x hx'
          omega
      · rw [htx, List.map_cons]
        refine List.nodup_cons.mpr ⟨?_, hnd⟩
        rw [hbid]
        intro hmem
        obtain ⟨y, hy, hyid⟩ := List.mem_map.mp hmem
        have := hfresh y hy
        omega
      · rw [hav1]
        omega
      · have hact : activeStatus bk.status = true := by simp [hbst, activeStatus]
        have hcb : contrib db.ticketType.id bk = (d.quantity : Int) := by
          unfold contrib
          rw [if_pos ⟨hbtt, hact⟩, hbq]
        rw [hid1, htot1, hav1, htx, outstanding_cons, hcb]
        omega
  | updateStatus now id s org auto mail =>
    simp only [step]
    cases hres : updateTransactionStatus db now id s org auto mail with
    | error err => exact ⟨hfresh, hnd, hpos, hsum⟩
    | ok r =>
      obtain ⟨db', bk, tr⟩ := r
      show LedgerInv db'
      obtain ⟨b, hg, hfind, hvalid, hbk, htr, hrest⟩ := updateStatus_ok hres
      have hw := writeStatus_proj db now id s
      have hout := outstanding_map_update db.ticketType.id id
        (fun t => { t with status := s, updatedAt := now }) (txMatches id org auto)
        (fun t ht => txMatches_id ht) db.transactions hnd b hfind
      have hcb : contrib db.ticketType.id b =
          (if b.ticketTypeId = db.ticketType.id then (b.quantity : Int) else 0) := by
        unfold contrib
        by_cases hc : b.ticketTypeId = db.ticketType.id
        · rw [if_pos ⟨hc, valid_source_active hvalid⟩, if_pos hc]
        · rw [if_neg (fun hh => hc hh.1), if_neg hc]
      rcases hrest with ⟨hrev, hres2⟩ | ⟨hrev, hdb⟩
      · obtain ⟨httid, htt, htx, hnext, _, _, _⟩ := restore_ok hres2
        rw [hw.1] at httid htt
        rw [hw.2.2.2] at htx
        rw [hw.2.1] at hnext
        have hid' : db'.ticketType.id = db.ticketType.id := by rw [htt]
        have htot' : db'.ticketType.totalSeats = db.ticketType.totalSeats := by rw [htt]
        have hav' : db'.ticketType.availableSeats =
            db.ticketType.availableSeats + (b.quantity : Int) := by rw [htt]
        have hcb1 : contrib db.ticketType.id b = (b.quantity : Int) := by
          rw [hcb, if_pos httid]
        have hcb2 : contrib db.ticketType.id { b with status := s, updatedAt := now } = 0 := by
          unfold contrib
          rw [if_neg ?_]
          intro hh
          have := reversing_inactive hrev
          rw [show ({ b with status := s, updatedAt := now } : Booking).status = s from rfl] at hh
          rw [this] at hh
          exact Bool.noConfusion hh.2
        refine ⟨?_, ?_, ?_, ?_⟩
        · intro x hx
          have hxm : x.id ∈ db'.transactions.map Booking.id := List.mem_map_of_mem _ hx
          rw [htx, ids_map_update id (fun t => { t with status := s, updatedAt := now }) (fun t => rfl)] at hxm
          obtain ⟨y, hy, hyid⟩ := List.mem_map.mp hxm
          rw [hnext, ← hyid]
          exact hfresh y hy
        · rw [htx, ids_map_update id (fun t => { t with status := s, updatedAt := now }) (fun t => rfl)]
          exact hnd
        · rw [hav']
          have := Int.natCast_nonneg b.quantity
          omega
        · rw [hid', htot', hav', htx, hout, hcb1, hcb2]
          omega
      · subst hdb
        have hceq : contrib db.ticketType.id { b with status := s, updatedAt := now } =
            contrib db.ticketType.id b := by
          unfold contrib
          by_cases hc : b.ticketTypeId = db.ticketType.id
          · rw [if_pos ⟨hc, valid_target_active hvalid hrev⟩,
              if_pos ⟨hc, valid_source_active hvalid⟩]
          · rw [if_neg (fun hh => hc hh.1), if_neg (fun hh => hc hh.1)]
        refine ⟨?_, ?_, ?_, ?_⟩
        · intro x hx
          rw [hw.2.2.2] at hx
          have hxm : x.id ∈ (db.transactions.map (fun t => if t.id = id then
              { t with status := s, updatedAt := now } else t)).map Booking.id :=
            List.mem_map_of_mem _ hx
          rw [ids_map_update id (fun t => { t with status := s, updatedAt := now }) (fun t => rfl)] at hxm
          obtain ⟨y, hy, hyid⟩ := List.mem_map.mp hxm
          rw [hw.2.1, ← hyid]
          exact hfresh y hy
        · rw [hw.2.2.2, ids_map_update id (fun t => { t with status := s, updatedAt := now }) (fun t => rfl)]
          exact hnd
        · rw [hw.1]
          exact hpos
        · rw [hw.1, hw.2.2.2, hout, hceq]
          omega
  | uploadProof now id uid pf =>
    simp only [step]
    cases hres : uploadPaymentProof db now id uid pf with
    | error err => exact ⟨hfresh, hnd, hpos, hsum⟩
    | ok r =>
      obtain ⟨db', bk⟩ := r
      show LedgerInv db'
      obtain ⟨t, hfind, hst, htt, hnext, _, _, _, htx⟩ := upload_ok hres
      have hout := outstanding_map_update db.ticketType.id id
        (fun x => { x with paymentProof := some pf,
                           status := TxStatus.waitingForConfirmation,
                           updatedAt := now })
        (fun x => x.id == id && x.userId == uid && !x.deleted)
        (fun x hxp => by
          simp only [Bool.and_eq_true, beq_iff_eq] at hxp
          exact hxp.1.1) db.transactions hnd t hfind
      have hceq : contrib db.ticketType.id
          { t with paymentProof := some pf,
                   status := TxStatus.waitingForConfirmation,
                   updatedAt := now } =
          contrib db.ticketType.id t := by
        unfold contrib
        by_cases hc : t.ticketTypeId = db.ticketType.id
        · rw [if_pos ⟨hc, rfl⟩, if_pos ⟨hc, by simp [hst, activeStatus]⟩]
        · rw [if_neg (fun hh => hc hh.1), if_neg (fun hh => hc hh.1)]
      refine ⟨?_, ?_, ?_, ?_⟩
      · intro x hx
        rw [htx] at hx
        have hxm : x.id ∈ (db.transactions.map (fun y => if y.id = id then
            { y with paymentProof := some pf,
                     status := TxStatus.waitingForConfirmation,
                     updatedAt := now } else y)).map Booking.id :=
          List.mem_map_of_mem _ hx
        rw [ids_map_update id (fun y => { y with paymentProof := some pf,
                                                 status := TxStatus.waitingForConfirmation,
                                                 updatedAt := now }) (fun y => rfl)] at hxm
        obtain ⟨y, hy, hyid⟩ := List.mem_map.mp hxm
        rw [hnext, ← hyid]
        exact hfresh y hy
      · rw [htx, ids_map_update id (fun y => { y with paymentProof := some pf,
                                                      status := TxStatus.waitingForConfirmation,
                                                      updatedAt := now }) (fun y => rfl)]
        exact hnd
      · rw [htt]
        exact hpos
      · rw [htt, htx, hout, hceq]
        omega

/-- Every sequence of service calls preserves the ledger invariant. -/
theorem ledgerInv_run (db : DB) (ops : List Op) (h : LedgerInv db) :
    LedgerInv (run db ops) := by
  induction ops generalizing db with
  | nil => exact h
  | cons op ops ih => exact ih (step db op) (ledgerInv_step db op h)

/-- The mail outcome affects only the notification events in the trace: a
status update has the same guard, lookup, transition and unit-of-work
behaviour for any mail outcome. -/
theorem updateStatus_mail_shape (db : DB) (now : Int) (id : Nat) (s : TxStatus)
    (org : Option Nat) (auto : Bool) (m : Bool) :
    updateTransactionStatus db now id s org auto m =
      match updateTransactionStatus db now id s org auto true with
      | Except.error e => Except.error e
      | Except.ok r => Except.ok (r.1, r.2.1,
          Ev.statusWrite id s ::
            (if (s == TxStatus.done || s == TxStatus.rejected) = true then
              sendTransactionStatusNotification m id s
            else []) ++ [Ev.commit]) := by
  unfold updateTransactionStatus
  split
  · rfl
  · split
    · rfl
    · split
      · rfl
      · split
        · rfl
        · rfl

/-! Claim theorems. -/

/-- C1: starting from the offering's creation state (no bookings, counter
equal to capacity), along every sequence of create, status-update and
proof-upload calls the available-seat counter never falls below 0 and never
exceeds the capacity; moreover a successful create decrements the counter
by exactly the booked quantity, a reversal increments it by exactly the
booking's quantity, and non-reversing updates and proof uploads leave it
unchanged. -/
theorem c1_capacity_conservation :
    (∀ (db0 : DB) (ops : List Op),
      db0.transactions = [] →
      db0.ticketType.availableSeats = db0.ticketType.totalSeats →
      0 ≤ db0.ticketType.totalSeats →
      0 ≤ (run db0 ops).ticketType.availableSeats ∧
      (run db0 ops).ticketType.availableSeats ≤ (run db0 ops).ticketType.totalSeats) ∧
    (∀ (db : DB) (now : Int) (u e : Nat) (d : CreateTransactionDto)
       (db' : DB) (bk : Booking),
      createTransaction db now u e d = Except.ok (db', bk) →
      bk.quantity = d.quantity ∧
      db'.ticketType.availableSeats =
        db.ticketType.availableSeats - (bk.quantity : Int)) ∧
    (∀ (db : DB) (now : Int) (id : Nat) (s : TxStatus) (org : Option Nat)
       (auto mail : Bool) (db' : DB) (bk : Booking) (tr : List Ev) (b : Booking),
      db.transactions.find? (txMatches id org auto) = some b →
      updateTransactionStatus db now id s org auto mail = Except.ok (db', bk, tr) →
      (reversingStatus s = true →
        db'.ticketType.availableSeats =
          db.ticketType.availableSeats + (b.quantity : Int)) ∧
      (reversingStatus s = false →
        db'.ticketType.availableSeats = db.ticketType.availableSeats)) ∧
    (∀ (db : DB) (now : Int) (id uid : Nat) (pf : String) (db' : DB) (bk : Booking),
      uploadPaymentProof db now id uid pf = Except.ok (db', bk) →
      db'.ticketType = db.ticketType) := by
  refine ⟨?_, ?_, ?_, ?_⟩
  · intro db0 ops h1 h2 h3
    have hinv : LedgerInv db0 := by
      refine ⟨?_, ?_, ?_, ?_⟩
      · intro b hb
        rw [h1] at hb
        exact absurd hb (List.not_mem_nil b)
      · rw [h1]
        exact List.nodup_nil
      · rw [h2]
        exact h3
      · rw [h1, h2]
        simp [outstanding]
    obtain ⟨_, _, hpos, hsum⟩ := ledgerInv_run db0 ops hinv
    have hout := outstanding_nonneg (run db0 ops).ticketType.id (run db0 ops).transactions
    exact ⟨hpos, by omega⟩
  · intro db now u e d db' bk h
    obtain ⟨up, cv, _, _, _, _, _, _, _, _, _, _, hcomm⟩ := createAt_ok h
    obtain ⟨_, hq, hbk, htt, _, _, _, _, _⟩ := createCommit_ok hcomm
    have hbq : bk.quantity = d.quantity := by rw [hbk]; rfl
    have hav : db'.ticketType.availableSeats =
        db.ticketType.availableSeats - (d.quantity : Int) := by rw [htt]
    rw [hbq]
    exact ⟨rfl, hav⟩
  · intro db now id s org auto mail db' bk tr b hfind h
    obtain ⟨b0, hg, hfind0, hvalid, hbk, htr, hrest⟩ := updateStatus_ok h
    cases Option.some.inj (hfind0.symm.trans hfind)
    have hw := writeStatus_proj db now id s
    constructor
    · intro hrev
      rcases hrest with ⟨_, hres2⟩ | ⟨hrev', _⟩
      · obtain ⟨_, htt, _, _, _, _, _⟩ := restore_ok hres2
        rw [hw.1] at htt
        rw [htt]
      · rw [hrev'] at hrev
        exact Bool.noConfusion hrev
    · intro hrev
      rcases hrest with ⟨hrev', _⟩ | ⟨_, hdb⟩
      · rw [hrev'] at hrev
        exact Bool.noConfusion hrev
      · rw [hdb, hw.1]
  · intro db now id uid pf db' bk h
    obtain ⟨t, _, _, htt, _⟩ := upload_ok h
    exact htt

/-- C1 witness: the concrete create-then-cancel sequence keeps the counter
within bounds; the concrete create decrements by its quantity and the
concrete reversal restores it. -/
theorem c1_capacity_conservation_witness :
    (0 ≤ (run exDb exOps).ticketType.availableSeats ∧
      (run exDb exOps).ticketType.availableSeats ≤
        (run exDb exOps).ticketType.totalSeats) ∧
    (exCreateBk.quantity = exDtoDisc.quantity ∧
      exCreateDb.ticketType.availableSeats =
        exDb.ticketType.availableSeats - (exCreateBk.quantity : Int)) ∧
    exRevDb.ticketType.availableSeats =
      exDbWFC.ticketType.availableSeats + (exBookingWFC.quantity : Int) := by
  refine ⟨?_, ?_, ?_⟩
  · exact c1_capacity_conservation.1 exDb exOps rfl rfl (by decide)
  · exact c1_capacity_conservation.2.1 exDb 0 1 1 exDtoDisc exCreateDb exCreateBk rfl
  · exact (c1_capacity_conservation.2.2.1 exDbWFC 99 50 TxStatus.rejected (some 9)
      false true exRevDb exRevBk exRevTr exBookingWFC (by decide) (by rfl)).1 rfl

/-- C3: a status update to REJECTED, EXPIRED or CANCELLED, in the same unit
of work that writes the status, increments the offering's seats by the
booking's quantity, credits back the points exactly when positive, reverts
the buyer's consumed coupon and voucher usage records from USED to ACTIVE,
and afterwards every further transition attempt on that booking fails with
the invalid-transition error, so the compensation runs exactly once. -/
theorem c3_reversal_compensation :
    ∀ (db : DB) (now : Int) (id : Nat) (s : TxStatus) (org : Option Nat)
      (auto mail : Bool) (db' : DB) (bk : Booking) (tr : List Ev) (b : Booking),
      (s = TxStatus.rejected ∨ s = TxStatus.expired ∨ s = TxStatus.cancelled) →
      db.transactions.find? (txMatches id org auto) = some b →
      updateTransactionStatus db now id s org auto mail = Except.ok (db', bk, tr) →
      db'.ticketType.availableSeats =
        db.ticketType.availableSeats + (b.quantity : Int) ∧
      (0 < b.pointsUsed → ∃ pts, db.users b.userId = some pts ∧
        db'.users b.userId = some (pts + (b.pointsUsed : Int))) ∧
      (b.pointsUsed = 0 → db'.users = db.users) ∧
      (∀ cid, b.couponId = some cid →
        db'.userCoupons = revertUsedRecords db.userCoupons b.userId cid) ∧
      (b.couponId = none → db'.userCoupons = db.userCoupons) ∧
      (∀ vid, b.voucherId = some vid →
        db'.userVouchers = revertUsedRecords db.userVouchers b.userId vid) ∧
      (b.voucherId = none → db'.userVouchers = db.userVouchers) ∧
      (∀ (now2 : Int) (s2 : TxStatus) (mail2 : Bool),
        updateTransactionStatus db' now2 id s2 org auto mail2 =
          Except.error ApiErr.invalidStatusTransition) := by
  intro db now id s org auto mail db' bk tr b hs hfind h
  obtain ⟨b0, hg, hfind0, hvalid, hbk, htr, hrest⟩ := updateStatus_ok h
  cases Option.some.inj (hfind0.symm.trans hfind)
  have hrev : reversingStatus s = true := by
    rcases hs with h' | h' | h' <;> rw [h'] <;> decide
  rcases hrest with ⟨_, hres2⟩ | ⟨hrev', _⟩
  · have hw := writeStatus_proj db now id s
    obtain ⟨httid, htt, htx, hnext, huc, huv, husers⟩ := restore_ok hres2
    rw [hw.1] at httid htt
    rw [hw.2.2.2] at htx
    rw [hw.2.2.1] at husers
    have hbid : b.id = id := txMatches_id (List.find?_some hfind)
    refine ⟨?_, ?_, ?_, ?_, ?_, ?_, ?_, ?_⟩
    · rw [htt]
    · intro hpos
      rcases husers with ⟨_, pts, hp1, hp2⟩ | ⟨hneg, _⟩
      · refine ⟨pts, hp1, ?_⟩
        rw [hp2]
        simp [setPoints]
      · exact absurd hpos hneg
    · intro hzero
      rcases husers with ⟨hpos, _⟩ | ⟨_, h2⟩
      · rw [hzero] at hpos
        exact absurd hpos (by simp)
      · exact h2
    · intro cid hcid
      rw [huc, (revC_proj (writeStatus db now id s) b).2.2.2.2.2, hcid]
      rfl
    · intro hcid
      rw [huc, (revC_proj (writeStatus db now id s) b).2.2.2.2.2, hcid]
      rfl
    · intro vid hvid
      rw [huv, (revV_proj (writeStatus db now id s) b).2.2.2.2.2, hvid]
      rfl
    · intro hvid
      rw [huv, (revV_proj (writeStatus db now id s) b).2.2.2.2.2, hvid]
      rfl
    · intro now2 s2 mail2
      have hp : ∀ t : Booking, txMatches id org auto
          (if t.id = id then { t with status := s, updatedAt := now } else t) =
          txMatches id org auto t := by
        intro t
        by_cases hc : t.id = id
        · rw [if_pos hc]
          rfl
        · rw [if_neg hc]
      have hfind' : db'.transactions.find? (txMatches id org auto) =
          some { b with status := s, updatedAt := now } := by
        rw [htx, find?_map_comm _ _ hp, hfind]
        have hmap : (some b).map (fun t => if t.id = id then
            { t with status := s, updatedAt := now } else t) =
            some (if b.id = id then { b with status := s, updatedAt := now } else b) := rfl
        rw [hmap, if_pos hbid]
      have hterm : ∀ s2' : TxStatus, isValidStatusTransition s s2' = false := by
        intro s2'
        rcases hs with h' | h' | h' <;> rw [h'] <;> cases s2' <;> decide
      unfold updateTransactionStatus
      rw [if_neg hg, hfind']
      simp [hterm s2]
  · rw [hrev'] at hrev
    exact Bool.noConfusion hrev

/-- C3 witness: reversing the concrete awaiting-confirmation booking
restores its two seats and 100 points, reverts the consumed coupon record,
and a further transition attempt on it fails as invalid. -/
theorem c3_reversal_compensation_witness :
    exRevDb.ticketType.availableSeats =
      exDbWFC.ticketType.availableSeats + (exBookingWFC.quantity : Int) ∧
    (∃ pts, exDbWFC.users 1 = some pts ∧
      exRevDb.users 1 = some (pts + (exBookingWFC.pointsUsed : Int))) ∧
    exRevDb.userCoupons = revertUsedRecords exDbWFC.userCoupons 1 11 ∧
    updateTransactionStatus exRevDb 200 50 TxStatus.done (some 9) false true =
      Except.error ApiErr.invalidStatusTransition := by
  have h := c3_reversal_compensation exDbWFC 99 50 TxStatus.rejected (some 9) false true
    exRevDb exRevBk exRevTr exBookingWFC (Or.inl rfl) (by decide) (by rfl)
  exact ⟨h.1, h.2.1 (by decide), h.2.2.2.1 11 rfl, h.2.2.2.2.2.2.2 200 TxStatus.done true⟩

/-- C8 counterexample: on a concrete approval to DONE the unit of work
succeeds and its trace contains a notification attempt, but the attempt is
NOT after the commit — it happens before the commit event, refuting the
claim that the hook is invoked after the unit of work commits. -/
theorem c8_notification_counterexample :
    exDoneOk = true ∧
    exDoneTr.any isNotifyEv = true ∧
    notifiedAfterCommit exDoneTr = false := by
  exact ⟨rfl, rfl, rfl⟩

/-- C8 (amended): for a status update to DONE or REJECTED the notification
hook is invoked inside the unit of work, before the commit event; it is
best-effort — whether the mail service succeeds or fails never changes the
outcome of the status update (same success with the same database and
booking, or the same error). -/
theorem c8_notification_best_effort :
    ∀ (db : DB) (now : Int) (id : Nat) (s : TxStatus) (org : Option Nat)
      (auto m1 m2 : Bool),
      (s = TxStatus.done ∨ s = TxStatus.rejected) →
      (∀ (db' : DB) (bk : Booking) (tr1 : List Ev),
        updateTransactionStatus db now id s org auto m1 = Except.ok (db', bk, tr1) →
        hasNotifyBeforeCommit tr1 = true ∧
        ∃ tr2, updateTransactionStatus db now id s org auto m2 = Except.ok (db', bk, tr2)) ∧
      (∀ err, updateTransactionStatus db now id s org auto m1 = Except.error err →
        updateTransactionStatus db now id s org auto m2 = Except.error err) := by
  intro db now id s org auto m1 m2 hs
  have hcond : (s == TxStatus.done || s == TxStatus.rejected) = true := by
    rcases hs with h' | h' <;> rw [h'] <;> rfl
  constructor
  · intro db' bk tr1 h
    obtain ⟨b, hg, hfind, hvalid, hbk, htr, hrest⟩ := updateStatus_ok h
    constructor
    · rw [htr, if_pos hcond]
      cases m1 <;>
        simp [hasNotifyBeforeCommit, sendTransactionStatusNotification,
          isCommitEv, isNotifyEv]
    · rw [updateStatus_mail_shape db now id s org auto m1] at h
      rw [updateStatus_mail_shape db now id s org auto m2]
      revert h
      cases updateTransactionStatus db now id s org auto true with
      | error e =>
        intro h
        exact Except.noConfusion h
      | ok r =>
        intro h
        have hinj := Except.ok.inj h
        have h1 : r.1 = db' := congrArg Prod.fst hinj
        have h2 : r.2.1 = bk := congrArg (fun x => x.2.1) hinj
        rw [← h1, ← h2]
        exact ⟨_, rfl⟩
  · intro err h
    rw [updateStatus_mail_shape db now id s org auto m1] at h
    rw [updateStatus_mail_shape db now id s org auto m2]
    revert h
    cases updateTransactionStatus db now id s org auto true with
    | error e =>
      intro h
      exact h
    | ok r =>
      intro h
      exact Except.noConfusion h

/-- C8 witness: on the concrete approval the notification attempt precedes
the commit, and the same approval with a failing mail service commits the
same database and booking. -/
theorem c8_notification_best_effort_witness :
    hasNotifyBeforeCommit exDoneTr = true ∧
    ∃ tr2, updateTransactionStatus exDbWFC 99 50 TxStatus.done (some 9) false false =
      Except.ok (exDoneDb, exDoneBk, tr2) := by
  exact (c8_notification_best_effort exDbWFC 99 50 TxStatus.done (some 9) false
    true false (Or.inl rfl)).1 exDoneDb exDoneBk exDoneTr (by rfl)

/-- C2 evaluated at the failing schedule: with two seats left, two racing
single-seat creates both read the counter before either commits; both
succeed, yet the counter ends at 1 — the stale absolute write loses the
concurrent decrement, so the counter no longer accounts for the two sold
seats.  With one seat left at most one of the two racing creates succeeds,
but the loser fails with the Prisma record-not-found error of the guarded
update, not with the not-enough-seats error. -/
theorem c2_stale_write_race :
    isOkCreate exRace2.1 = true ∧
    isOkCreate exRace2.2.1 = true ∧
    exRace2.2.2.ticketType.availableSeats = 1 ∧
    exRace2.2.2.ticketType.totalSeats = 2 ∧
    outstanding 5 exRace2.2.2.transactions = 2 ∧
    exRace2.2.2.ticketType.availableSeats + outstanding 5 exRace2.2.2.transactions ≠
      exRace2.2.2.ticketType.totalSeats ∧
    isOkCreate exRace1.1 = true ∧
    exRace1.2.1 = Except.error ApiErr.recordNotFound ∧
    exRace1.2.2.ticketType.availableSeats = 0 := by
  exact ⟨rfl, rfl, by decide, by decide, by decide, by decide, rfl, rfl, by decide⟩

/-- C5: a stored booking's final amount is
`max(0, unitPrice·quantity − couponDiscount − voucherDiscount − pointsUsed)`;
with the validation prefix passing, a positive-priced offering whose
computed final amount is ≤ 0 fails with the invalid-amount error (leaving
no booking, as a failed call changes nothing), and a zero-priced offering
books successfully with final amount 0 for any discounts and points. -/
theorem c5_final_amount :
    (∀ (db : DB) (now : Int) (u e : Nat) (d : CreateTransactionDto)
       (db' : DB) (bk : Booking),
      createTransaction db now u e d = Except.ok (db', bk) →
      ∃ cv, applyDiscounts db now u e d.couponCode d.voucherCode = Except.ok cv ∧
        bk.finalAmount = max 0 (bk.unitPrice * (bk.quantity : Int) -
          (couponDisc cv.1 + voucherDisc cv.2) - (bk.pointsUsed : Int))) ∧
    (∀ (db : DB) (now : Int) (u e : Nat) (d : CreateTransactionDto)
       (cv : Option Coupon × Option Voucher),
      createPreChecksOk db now u e d = true →
      applyDiscounts db now u e d.couponCode d.voucherCode = Except.ok cv →
      0 < db.ticketType.price →
      finalAmountOf db.ticketType d.quantity (d.pointsUsed.getD 0) cv.1 cv.2 ≤ 0 →
      createTransaction db now u e d = Except.error ApiErr.invalidFinalAmount) ∧
    (∀ (db : DB) (now : Int) (u e : Nat) (d : CreateTransactionDto),
      createPreChecksOk db now u e d = true →
      db.ticketType.price = 0 →
      ∃ db' bk, createTransaction db now u e d = Except.ok (db', bk) ∧
        bk.finalAmount = 0) := by
  refine ⟨?_, ?_, ?_⟩
  · intro db now u e d db' bk h
    obtain ⟨up, cv, _, _, _, _, _, _, _, _, hcv, _, hcomm⟩ := createAt_ok h
    obtain ⟨_, _, hbk, _⟩ := createCommit_ok hcomm
    refine ⟨cv, hcv, ?_⟩
    rw [hbk]
    simp [newBooking, finalAmountOf, totalAmountOf]
  · intro db now u e d cv hpre hcv hpos hle
    unfold createTransaction
    rw [createAt_reduce hpre hcv, if_pos ⟨hpos.ne', hle⟩]
  · intro db now u e d hpre h0
    have hp := hpre
    unfold createPreChecksOk at hp
    simp only [Bool.and_eq_true, beq_iff_eq, Bool.not_eq_true', decide_eq_false_iff_not,
      Option.isSome_iff_exists] at hp
    obtain ⟨⟨⟨⟨⟨⟨⟨⟨pts, hpts⟩, hid, hdel⟩, hev⟩, hpub⟩, hend⟩, hseats⟩, hpuok⟩, hdisc⟩ := hp
    have hcv : ∃ cv, applyDiscounts db now u e d.couponCode d.voucherCode = Except.ok cv := by
      rcases happ : applyDiscounts db now u e d.couponCode d.voucherCode with er | cv
      · rw [happ] at hdisc
        exact absurd hdisc (by simp)
      · exact ⟨cv, rfl⟩
    obtain ⟨cv, hcv⟩ := hcv
    unfold createTransaction
    rw [createAt_reduce hpre hcv, if_neg (by simp [h0])]
    obtain ⟨db', hcomm⟩ := createCommit_free_ok rfl (not_lt.mp hseats) hpts
    refine ⟨db', _, hcomm, ?_⟩
    have hc := couponDisc_nonneg cv.1
    have hv := voucherDisc_nonneg cv.2
    have hpnn : (0 : Int) ≤ ((d.pointsUsed.getD 0 : Nat) : Int) := Int.natCast_nonneg _
    simp only [newBooking, finalAmountOf, totalAmountOf, h0, zero_mul]
    omega

/-- C5 witness: with the validation prefix passing concretely, the
price-100 offering with the value-100 coupon fails with the invalid-amount
error, and the free offering books with final amount 0; a successful
discounted create stores exactly the floored final amount. -/
theorem c5_final_amount_witness :
    createTransaction exDbCheap 5 1 1 exDtoCoupon = Except.error ApiErr.invalidFinalAmount ∧
    (∃ db' bk, createTransaction exDbFree 5 1 1 exDtoDisc = Except.ok (db', bk) ∧
      bk.finalAmount = 0) ∧
    (∃ cv, applyDiscounts exDb 0 1 1 exDtoDisc.couponCode exDtoDisc.voucherCode =
        Except.ok cv ∧
      exCreateBk.finalAmount = max 0 (exCreateBk.unitPrice * (exCreateBk.quantity : Int) -
        (couponDisc cv.1 + voucherDisc cv.2) - (exCreateBk.pointsUsed : Int))) := by
  refine ⟨?_, ?_, ?_⟩
  · exact c5_final_amount.2.1 exDbCheap 5 1 1 exDtoCoupon
      (some exCoupon, none) (by decide) (by rfl) (by decide) (by decide)
  · exact c5_final_amount.2.2 exDbFree 5 1 1 exDtoDisc (by decide) (by decide)
  · exact c5_final_amount.1 exDb 0 1 1 exDtoDisc exCreateDb exCreateBk rfl

/-- C6: uploading a payment proof on a found booking fails with the
not-awaiting-payment error whenever the status is not AWAITING_PAYMENT,
fails with the expiry error when the deadline has passed, succeeds exactly
when the status is AWAITING_PAYMENT and now ≤ deadline, and on success
attaches the proof and moves the booking to AWAITING_CONFIRMATION. -/
theorem c6_payment_proof :
    (∀ (db : DB) (now : Int) (id uid : Nat) (pf : String) (t : Booking),
      db.transactions.find? (fun x => x.id == id && x.userId == uid && !x.deleted) = some t →
      (t.status ≠ TxStatus.waitingForPayment →
        uploadPaymentProof db now id uid pf = Except.error ApiErr.notWaitingForPayment) ∧
      (t.status = TxStatus.waitingForPayment → t.expiresAt < now →
        uploadPaymentProof db now id uid pf = Except.error ApiErr.uploadExpired) ∧
      (t.status = TxStatus.waitingForPayment → now ≤ t.expiresAt →
        ∃ db' bk, uploadPaymentProof db now id uid pf = Except.ok (db', bk) ∧
          bk.paymentProof = some pf ∧ bk.status = TxStatus.waitingForConfirmation)) ∧
    (∀ (db : DB) (now : Int) (id uid : Nat) (pf : String) (db' : DB) (bk : Booking),
      uploadPaymentProof db now id uid pf = Except.ok (db', bk) →
      ∃ t, db.transactions.find?
          (fun x => x.id == id && x.userId == uid && !x.deleted) = some t ∧
        t.status = TxStatus.waitingForPayment ∧ now ≤ t.expiresAt ∧
        bk = { t with paymentProof := some pf,
                      status := TxStatus.waitingForConfirmation, updatedAt := now }) := by
  constructor
  · intro db now id uid pf t hfind
    refine ⟨?_, ?_, ?_⟩
    · intro hst
      unfold uploadPaymentProof
      rw [hfind]
      simp [hst]
    · intro hst hexp
      unfold uploadPaymentProof
      rw [hfind]
      simp [hst, hexp]
    · intro hst hnow
      unfold uploadPaymentProof
      rw [hfind]
      simp only [hst, ne_eq, not_true_eq_false, if_false]
      rw [if_neg (not_lt.mpr hnow)]
      rw [if_neg (by decide :
        ¬(isValidStatusTransition TxStatus.waitingForPayment
            TxStatus.waitingForConfirmation = false))]
      exact ⟨_, _, rfl, rfl, rfl⟩
  · intro db now id uid pf db' bk h
    unfold uploadPaymentProof at h
    split at h
    · exact Except.noConfusion h
    · rename_i t hfind
      split_ifs at h with s1 s2 s3
      obtain ⟨hdb, hbk⟩ := Prod.mk.inj (Except.ok.inj h)
      exact ⟨t, hfind, not_not.mp s1, not_lt.mp s2, hbk.symm⟩

/-- C6 witness: on the awaiting-payment booking the upload succeeds and
moves it to awaiting confirmation with the proof attached; on the
awaiting-confirmation booking it fails with the status error; past the
deadline it fails with the expiry error. -/
theorem c6_payment_proof_witness :
    (∃ db' bk, uploadPaymentProof exDbWFP 100 51 1 exProofRef = Except.ok (db', bk) ∧
      bk.paymentProof = some exProofRef ∧ bk.status = TxStatus.waitingForConfirmation) ∧
    uploadPaymentProof exDbWFC 100 50 1 exProofRef =
      Except.error ApiErr.notWaitingForPayment ∧
    uploadPaymentProof exDbWFP 9999999 51 1 exProofRef =
      Except.error ApiErr.uploadExpired := by
  refine ⟨?_, ?_, ?_⟩
  · exact (c6_payment_proof.1 exDbWFP 100 51 1 exProofRef exBookingWFP
      (by decide)).2.2 (by decide) (by decide)
  · exact (c6_payment_proof.1 exDbWFC 100 50 1 exProofRef exBookingWFC
      (by decide)).1 (by decide)
  · exact (c6_payment_proof.1 exDbWFP 9999999 51 1 exProofRef exBookingWFP
      (by decide)).2.1 (by decide) (by decide)

/-- C7: coupon and voucher resolution fail with the not-found error when no
matching live grant exists for the code (and event, for vouchers), with the
not-active error when now is outside the window, with the limit error when
the USED count reached the usage limit, and with the already-used error
when the requesting user holds a USED record; success returns the stored
grant (discount value and identifier) having passed all those checks, and
the USED usage records are written only by the create unit of work. -/
theorem c7_discount_resolution :
    (∀ (db : DB) (now : Int) (code : String) (uid : Nat),
      (∀ c ∈ db.coupons, ¬(c.code = code ∧ c.deleted = false)) →
      validateCoupon db now code uid = Except.error ApiErr.invalidCouponCode) ∧
    (∀ (db : DB) (now : Int) (code : String) (uid : Nat) (c : Coupon),
      db.coupons.find? (fun x => x.code == code && !x.deleted) = some c →
      (now < c.startDate ∨ c.endDate < now) →
      validateCoupon db now code uid = Except.error ApiErr.couponNotActive) ∧
    (∀ (db : DB) (now : Int) (code : String) (uid : Nat) (c : Coupon),
      db.coupons.find? (fun x => x.code == code && !x.deleted) = some c →
      ¬(now < c.startDate ∨ c.endDate < now) →
      c.usageLimit ≤ usedCouponCount db c.id →
      validateCoupon db now code uid = Except.error ApiErr.couponLimitExceeded) ∧
    (∀ (db : DB) (now : Int) (code : String) (uid : Nat) (c : Coupon),
      db.coupons.find? (fun x => x.code == code && !x.deleted) = some c →
      ¬(now < c.startDate ∨ c.endDate < now) →
      usedCouponCount db c.id < c.usageLimit →
      (∃ r ∈ db.userCoupons,
        r.userId = uid ∧ r.grantId = c.id ∧ r.status = UsageStatus.used) →
      validateCoupon db now code uid = Except.error ApiErr.couponAlreadyUsed) ∧
    (∀ (db : DB) (now : Int) (code : String) (uid : Nat) (c : Coupon),
      validateCoupon db now code uid = Except.ok c →
      c ∈ db.coupons ∧ c.code = code ∧ c.deleted = false ∧
      c.startDate ≤ now ∧ now ≤ c.endDate ∧
      usedCouponCount db c.id < c.usageLimit ∧
      ∀ r ∈ db.userCoupons,
        ¬(r.userId = uid ∧ r.grantId = c.id ∧ r.status = UsageStatus.used)) ∧
    (∀ (db : DB) (now : Int) (code : String) (e uid : Nat),
      (∀ v ∈ db.vouchers, ¬(v.code = code ∧ v.eventId = e ∧ v.deleted = false)) →
      validateVoucher db now code e uid = Except.error ApiErr.invalidVoucherCode) ∧
    (∀ (db : DB) (now : Int) (code : String) (e uid : Nat) (v : Voucher),
      db.vouchers.find? (fun x => x.code == code && x.eventId == e && !x.deleted) = some v →
      (now < v.startDate ∨ v.endDate < now) →
      validateVoucher db now code e uid = Except.error ApiErr.voucherNotActive) ∧
    (∀ (db : DB) (now : Int) (code : String) (e uid : Nat) (v : Voucher),
      db.vouchers.find? (fun x => x.code == code && x.eventId == e && !x.deleted) = some v →
      ¬(now < v.startDate ∨ v.endDate < now) →
      v.usageLimit ≤ usedVoucherCount db v.id →
      validateVoucher db now code e uid = Except.error ApiErr.voucherLimitExceeded) ∧
    (∀ (db : DB) (now : Int) (code : String) (e uid : Nat) (v : Voucher),
      db.vouchers.find? (fun x => x.code == code && x.eventId == e && !x.deleted) = some v →
      ¬(now < v.startDate ∨ v.endDate < now) →
      usedVoucherCount db v.id < v.usageLimit →
      (∃ r ∈ db.userVouchers,
        r.userId = uid ∧ r.grantId = v.id ∧ r.status = UsageStatus.used) →
      validateVoucher db now code e uid = Except.error ApiErr.voucherAlreadyUsed) ∧
    (∀ (db : DB) (now : Int) (code : String) (e uid : Nat) (v : Voucher),
      validateVoucher db now code e uid = Except.ok v →
      v ∈ db.vouchers ∧ v.code = code ∧ v.eventId = e ∧ v.deleted = false ∧
      v.startDate ≤ now ∧ now ≤ v.endDate ∧
      usedVoucherCount db v.id < v.usageLimit ∧
      ∀ r ∈ db.userVouchers,
        ¬(r.userId = uid ∧ r.grantId = v.id ∧ r.status = UsageStatus.used)) ∧
    (∀ (db : DB) (now : Int) (u e : Nat) (d : CreateTransactionDto)
       (db' : DB) (bk : Booking),
      createTransaction db now u e d = Except.ok (db', bk) →
      (d.couponCode = none → db'.userCoupons = db.userCoupons) ∧
      (∀ s, d.couponCode = some s → ∃ c, validateCoupon db now s u = Except.ok c ∧
        db'.userCoupons = addUsedRecord db.userCoupons u c.id c.endDate) ∧
      (d.voucherCode = none → db'.userVouchers = db.userVouchers) ∧
      (∀ s, d.voucherCode = some s → ∃ v, validateVoucher db now s e u = Except.ok v ∧
        db'.userVouchers = addUsedRecord db.userVouchers u v.id v.endDate)) := by
  refine ⟨?_, ?_, ?_, ?_, ?_, ?_, ?_, ?_, ?_, ?_, ?_⟩
  · intro db now code uid h
    have hnone : db.coupons.find? (fun x => x.code == code && !x.deleted) = none := by
      apply List.find?_eq_none.mpr
      intro x hx hp
      simp only [Bool.and_eq_true, beq_iff_eq, Bool.not_eq_true'] at hp
      exact h x hx ⟨hp.1, hp.2⟩
    unfold validateCoupon
    rw [hnone]
  · intro db now code uid c hfind hw
    unfold validateCoupon
    rw [hfind]
    simp [hw]
  · intro db now code uid c hfind hw hl
    unfold validateCoupon
    rw [hfind]
    simp [hw, hl]
  · intro db now code uid c hfind hw hl hex
    have hany : db.userCoupons.any
        (fun r => r.userId == uid && r.grantId == c.id && r.status == UsageStatus.used) = true := by
      rw [List.any_eq_true]
      obtain ⟨r, hr, h1, h2, h3⟩ := hex
      exact ⟨r, hr, by simp [h1, h2, h3]⟩
    unfold validateCoupon
    rw [hfind]
    simp [hw, not_le.mpr hl, hany]
  · intro db now code uid c h
    exact validateCoupon_ok h
  · intro db now code e uid h
    have hnone : db.vouchers.find?
        (fun x => x.code == code && x.eventId == e && !x.deleted) = none := by
      apply List.find?_eq_none.mpr
      intro x hx hp
      simp only [Bool.and_eq_true, beq_iff_eq, Bool.not_eq_true'] at hp
      exact h x hx ⟨hp.1.1, hp.1.2, hp.2⟩
    unfold validateVoucher
    rw [hnone]
  · intro db now code e uid v hfind hw
    unfold validateVoucher
    rw [hfind]
    simp [hw]
  · intro db now code e uid v hfind hw hl
    unfold validateVoucher
    rw [hfind]
    simp [hw, hl]
  · intro db now code e uid v hfind hw hl hex
    have hany : db.userVouchers.any
        (fun r => r.userId == uid && r.grantId == v.id && r.status == UsageStatus.used) = true := by
      rw [List.any_eq_true]
      obtain ⟨r, hr, h1, h2, h3⟩ := hex
      exact ⟨r, hr, by simp [h1, h2, h3]⟩
    unfold validateVoucher
    rw [hfind]
    simp [hw, not_le.mpr hl, hany]
  · intro db now code e uid v h
    exact validateVoucher_ok h
  · intro db now u e d db' bk h
    obtain ⟨up, cv, _, _, _, _, _, _, _, _, hcv, _, hcomm⟩ := createAt_ok h
    obtain ⟨_, _, _, _, _, _, huc, huv, _⟩ := createCommit_ok hcomm
    obtain ⟨hc_none, hc_some, hv_none, hv_some⟩ := applyDiscounts_ok hcv
    refine ⟨?_, ?_, ?_, ?_⟩
    · intro hn
      rw [huc, hc_none hn]
      rfl
    · intro s hs
      obtain ⟨c, hcok, hcv1⟩ := hc_some s hs
      refine ⟨c, hcok, ?_⟩
      rw [huc, hcv1]
      rfl
    · intro hn
      rw [huv, hv_none hn]
      rfl
    · intro s hs
      obtain ⟨v, hvok, hcv2⟩ := hv_some s hs
      refine ⟨v, hvok, ?_⟩
      rw [huv, hcv2]
      rfl

/-- C7 witness: concrete instances of the not-found, inactive, limit,
already-used and success branches for the coupon side, a not-found and a
success instance for the voucher side, and the USED record written by a
concrete successful create. -/
theorem c7_discount_resolution_witness :
    validateCoupon exDb 0 exVoucherCode 1 = Except.error ApiErr.invalidCouponCode ∧
    validateCoupon exDb (-5) exCouponCode 1 = Except.error ApiErr.couponNotActive ∧
    validateCoupon exDbLimit 5 exCouponCode 1 = Except.error ApiErr.couponLimitExceeded ∧
    validateCoupon exDbUsed 5 exCouponCode 1 = Except.error ApiErr.couponAlreadyUsed ∧
    (exCoupon ∈ exDb.coupons ∧ exCoupon.code = exCouponCode ∧
      exCoupon.deleted = false ∧ exCoupon.startDate ≤ 5 ∧ (5 : Int) ≤ exCoupon.endDate ∧
      usedCouponCount exDb exCoupon.id < exCoupon.usageLimit ∧
      ∀ r ∈ exDb.userCoupons,
        ¬(r.userId = 1 ∧ r.grantId = exCoupon.id ∧ r.status = UsageStatus.used)) ∧
    validateVoucher exDb 0 exCouponCode 1 1 = Except.error ApiErr.invalidVoucherCode ∧
    (exVoucher ∈ exDb.vouchers ∧ exVoucher.code = exVoucherCode ∧
      exVoucher.eventId = 1 ∧ exVoucher.deleted = false ∧
      exVoucher.startDate ≤ 5 ∧ (5 : Int) ≤ exVoucher.endDate ∧
      usedVoucherCount exDb exVoucher.id < exVoucher.usageLimit ∧
      ∀ r ∈ exDb.userVouchers,
        ¬(r.userId = 1 ∧ r.grantId = exVoucher.id ∧ r.status = UsageStatus.used)) ∧
    (∃ c, validateCoupon exDb 0 exCouponCode 1 = Except.ok c ∧
      exCreateDb.userCoupons = addUsedRecord exDb.userCoupons 1 c.id c.endDate) := by
  refine ⟨?_, ?_, ?_, ?_, ?_, ?_, ?_, ?_⟩
  · exact c7_discount_resolution.1 exDb 0 exVoucherCode 1 (by decide)
  · exact c7_discount_resolution.2.1 exDb (-5) exCouponCode 1 exCoupon (by decide) (by decide)
  · exact c7_discount_resolution.2.2.1 exDbLimit 5 exCouponCode 1
      { exCoupon with usageLimit := 0 } (by decide) (by decide) (by decide)
  · exact c7_discount_resolution.2.2.2.1 exDbUsed 5 exCouponCode 1 exCoupon (by decide)
      (by decide) (by decide)
      ⟨{ userId := 1, grantId := 11, status := UsageStatus.used, expiresAt := 900000000 },
        by decide, by decide, by decide, by decide⟩
  · exact c7_discount_resolution.2.2.2.2.1 exDb 5 exCouponCode 1 exCoupon (by rfl)
  · exact c7_discount_resolution.2.2.2.2.2.1 exDb 0 exCouponCode 1 1 (by decide)
  · exact c7_discount_resolution.2.2.2.2.2.2.2.2.2.1 exDb 5 exVoucherCode 1 1
      exVoucher (by rfl)
  · exact (c7_discount_resolution.2.2.2.2.2.2.2.2.2.2 exDb 0 1 1 exDtoDisc
      exCreateDb exCreateBk rfl).2.1 exCouponCode rfl

/-- C4: for every pair of statuses, `isValidStatusTransition` allows exactly
the table `AWAITING_PAYMENT → {AWAITING_CONFIRMATION, EXPIRED, CANCELLED}`,
`AWAITING_CONFIRMATION → {DONE, REJECTED, CANCELLED}`, terminal states to
nothing; and `updateTransactionStatus` on a found booking fails with the
invalid-transition error exactly for pairs outside the table. -/
theorem c4_transition_table :
    (∀ c n, isValidStatusTransition c n = true ↔
      ((c = TxStatus.waitingForPayment ∧
          (n = TxStatus.waitingForConfirmation ∨ n = TxStatus.expired ∨
           n = TxStatus.cancelled)) ∨
       (c = TxStatus.waitingForConfirmation ∧
          (n = TxStatus.done ∨ n = TxStatus.rejected ∨ n = TxStatus.cancelled)))) ∧
    (∀ (db : DB) (now : Int) (id : Nat) (s : TxStatus) (org : Option Nat)
       (auto mail : Bool) (b : Booking),
      db.transactions.find? (txMatches id org auto) = some b →
      isValidStatusTransition b.status s = false →
      updateTransactionStatus db now id s org auto mail =
        Except.error ApiErr.invalidStatusTransition) ∧
    (∀ (db : DB) (now : Int) (id : Nat) (s : TxStatus) (org : Option Nat)
       (auto mail : Bool) (b : Booking),
      db.transactions.find? (txMatches id org auto) = some b →
      isValidStatusTransition b.status s = true →
      updateTransactionStatus db now id s org auto mail ≠
        Except.error ApiErr.invalidStatusTransition) := by
  refine ⟨by intro c n; cases c <;> cases n <;> decide, ?_, ?_⟩
  · intro db now id s org auto mail b hfind hbad
    by_cases hg : ¬auto = true ∧ org = none
    · exfalso
      have hnone : db.transactions.find? (txMatches id org auto) = none := by
        apply List.find?_eq_none.mpr
        intro x _
        have hb : auto = false := by
          cases auto
          · rfl
          · exact absurd rfl hg.1
        rw [hg.2, hb, txMatches_none]
        simp
      rw [hfind] at hnone
      exact Option.noConfusion hnone
    · unfold updateTransactionStatus
      rw [if_neg hg, hfind]
      simp [hbad]
  · intro db now id s org auto mail b hfind hok
    by_cases hg : ¬auto = true ∧ org = none
    · exfalso
      have hnone : db.transactions.find? (txMatches id org auto) = none := by
        apply List.find?_eq_none.mpr
        intro x _
        have hb : auto = false := by
          cases auto
          · rfl
          · exact absurd rfl hg.1
        rw [hg.2, hb, txMatches_none]
        simp
      rw [hfind] at hnone
      exact Option.noConfusion hnone
    · unfold updateTransactionStatus
      rw [if_neg hg, hfind]
      simp only [hok, Bool.true_eq_false, if_false]
      intro hcon
      cases hres : (if reversingStatus s = true then restoreResources (writeStatus db now id s) b
          else Except.ok (writeStatus db now id s)) with
      | error e =>
        rw [hres] at hcon
        simp only [Except.error.injEq] at hcon
        by_cases hrev : reversingStatus s = true
        · rw [if_pos hrev] at hres
          have := restore_error hres
          rw [hcon] at this
          exact ApiErr.noConfusion this
        · rw [if_neg hrev] at hres
          exact Except.noConfusion hres
      | ok db2 =>
        rw [hres] at hcon
        exact Except.noConfusion hcon

/-- C4 witness: on a booking awaiting confirmation, moving back to awaiting
payment is rejected as an invalid transition, while approving to DONE is
not rejected with that error. -/
theorem c4_transition_table_witness :
    updateTransactionStatus exDbWFC 99 50 TxStatus.waitingForPayment (some 9) false true =
      Except.error ApiErr.invalidStatusTransition ∧
    updateTransactionStatus exDbWFC 99 50 TxStatus.done (some 9) false true ≠
      Except.error ApiErr.invalidStatusTransition :=
  ⟨c4_transition_table.2.1 exDbWFC 99 50 TxStatus.waitingForPayment (some 9) false true
      exBookingWFC (by decide) (by decide),
   c4_transition_table.2.2 exDbWFC 99 50 TxStatus.done (some 9) false true
      exBookingWFC (by decide) (by decide)⟩

/-- C9: the expiration scan selects exactly the non-deleted bookings
awaiting payment whose deadline is strictly before now, and the staleness
scan exactly the non-deleted bookings awaiting confirmation whose last
update is more than three days old. -/
theorem c9_sweeper_scans :
    (∀ (db : DB) (now : Int) (t : Booking),
      t ∈ getExpiredTransactions db now ↔
        t ∈ db.transactions ∧ t.deleted = false ∧
        t.status = TxStatus.waitingForPayment ∧ t.expiresAt < now) ∧
    (∀ (db : DB) (now : Int) (t : Booking),
      t ∈ getPendingTransactions db now ↔
        t ∈ db.transactions ∧ t.deleted = false ∧
        t.status = TxStatus.waitingForConfirmation ∧
        3 * 24 * 60 * 60 * 1000 < now - t.updatedAt) := by
  constructor
  · intro db now t
    simp only [getExpiredTransactions, List.mem_filter, Bool.and_eq_true,
      beq_iff_eq, decide_eq_true_eq, Bool.not_eq_true']
    constructor
    · rintro ⟨hm, ⟨hs, hlt⟩, hdel⟩
      exact ⟨hm, hdel, hs, hlt⟩
    · rintro ⟨hm, hdel, hs, hlt⟩
      exact ⟨hm, ⟨hs, hlt⟩, hdel⟩
  · intro db now t
    simp only [getPendingTransactions, List.mem_filter, Bool.and_eq_true,
      beq_iff_eq, decide_eq_true_eq, Bool.not_eq_true']
    constructor
    · rintro ⟨hm, ⟨hs, hlt⟩, hdel⟩
      exact ⟨hm, hdel, hs, by omega⟩
    · rintro ⟨hm, hdel, hs, hlt⟩
      exact ⟨hm, ⟨hs, by omega⟩, hdel⟩

/-- C10: for a role other than CUSTOMER and ORGANIZER, the listing applies
no buyer/seller filter — it returns every non-deleted transaction and is
independent of the calling user — and the by-id lookup equals the
filter-free lookup, likewise independent of the calling user. -/
theorem c10_role_filters :
    ∀ (db : DB) (id u1 u2 : Nat) (role : String),
      role ≠ "CUSTOMER" → role ≠ "ORGANIZER" →
      getTransaction db u1 role = getTransaction db u2 role ∧
      getTransaction db u1 role = db.transactions.filter (fun t => !t.deleted) ∧
      getTransactionById db id u1 role = getTransactionById db id u2 role ∧
      getTransactionById db id u1 role =
        (match db.transactions.find? (fun t => t.id == id && !t.deleted) with
         | none => Except.error ApiErr.transactionNotFound
         | some t => Except.ok t) := by
  intro db id u1 u2 role h1 h2
  have hpred : ∀ u : Nat, (fun t : Booking =>
      t.id == id && !t.deleted &&
      (if role = "CUSTOMER" then t.userId == u
       else if role = "ORGANIZER" then t.organizerId == u
       else true)) = (fun t : Booking => t.id == id && !t.deleted) := by
    intro u
    funext t
    rw [if_neg h1, if_neg h2, Bool.and_true]
  refine ⟨?_, ?_, ?_, ?_⟩
  · unfold getTransaction
    rw [if_neg h1, if_neg h2, if_neg h1, if_neg h2]
  · unfold getTransaction
    rw [if_neg h1, if_neg h2]
  · unfold getTransactionById
    rw [hpred u1, hpred u2]
  · unfold getTransactionById
    rw [hpred u1]

/-- C10 witness: with the ADMIN role the listing over a two-buyer database
is the same for callers 1 and 2 and returns both bookings, and the by-id
lookup is caller-independent. -/
theorem c10_role_filters_witness :
    getTransaction exDbTxs 1 exRoleAdmin = getTransaction exDbTxs 2 exRoleAdmin ∧
    getTransaction exDbTxs 1 exRoleAdmin =
      exDbTxs.transactions.filter (fun t => !t.deleted) ∧
    getTransactionById exDbTxs 52 1 exRoleAdmin =
      getTransactionById exDbTxs 52 2 exRoleAdmin ∧
    getTransactionById exDbTxs 52 1 exRoleAdmin =
      (match exDbTxs.transactions.find? (fun t => t.id == 52 && !t.deleted) with
       | none => Except.error ApiErr.transactionNotFound
       | some t => Except.ok t) :=
  c10_role_filters exDbTxs 52 1 2 exRoleAdmin (by decide) (by decide)

end BeEvent
